import Mathlib

/-!
Verification development for the openconfig/lsdbparse repository: a shallow
embedding, in Lean 4, of the IS-IS LSP binary decoder (lsdb.go, parse_lsp.go,
parse_helpers.go) and of the gNMI notification renderer, together with
theorems settling the specification claims about them.

Bytes are modelled as lists of natural numbers (each input byte is below
256).  Go functions returning (value, error) become functions into an
Except-style type; Go code that can hit a runtime panic (an out-of-range
index, an out-of-range slice bound, or an infinite loop) is embedded in the
GoOut monad below, which makes those outcomes explicit.
-/

namespace Lsdbparse

/-- A byte string, one natural number per byte. -/
abbrev Bytes := List Nat

/-- Outcome of running an embedded Go computation: a normal result, a
runtime panic (out-of-range index or slice bound), or divergence (a loop
that never exits).  Returned Go errors are not in this type; they are
ordinary values (Except or error lists) inside the result. -/
inductive GoOut (α : Type) where
  | ok : α → GoOut α
  | panik : String → GoOut α
  | diverge : GoOut α
deriving DecidableEq, Repr

def GoOut.bind {α β : Type} : GoOut α → (α → GoOut β) → GoOut β
  | .ok a, f => f a
  | .panik s, _ => .panik s
  | .diverge, _ => .diverge

instance : Monad GoOut where
  pure := GoOut.ok
  bind := GoOut.bind

/-- Go indexing b[i] on a byte slice: the runtime panics when i is not
below the slice length. -/
def goIndex (b : Bytes) (i : Nat) : GoOut Nat :=
  if h : i < b.length then .ok (b.get ⟨i, h⟩) else .panik ("index out of range")

/-- Go slicing b[lo:hi].  The Go runtime checks lo against hi and hi
against the slice capacity; the capacity of every byte slice handled by
this repository is at least its length, and the embedding uses the length
as the bound.  (Between length and capacity Go would read allocator zero
padding instead of panicking; no theorem below depends on inputs that
reach that region through a slice expression.) -/
def goSlice (b : Bytes) (lo hi : Nat) : GoOut Bytes :=
  if lo ≤ hi ∧ hi ≤ b.length then .ok ((b.take hi).drop lo)
  else .panik ("slice bounds out of range")

/-- Association-list lookup, standing in for a Go map read. -/
def alookup {K V : Type} [DecidableEq K] : List (K × V) → K → Option V
  | [], _ => none
  | (k, v) :: t, k' => if k' = k then some v else alookup t k'

/-- Association-list write, standing in for a Go map assignment m[k] = v:
replaces the binding when the key is present, appends it otherwise. -/
def aset {K V : Type} [DecidableEq K] : List (K × V) → K → V → List (K × V)
  | [], k, v => [(k, v)]
  | (k0, v0) :: t, k, v => if k = k0 then (k, v) :: t else (k0, v0) :: aset t k v

/-- Keyed insertion as performed by the generated New*/Append* helpers of
the OpenConfig structs: fails when the key is already bound. -/
def keyedAppend {K V : Type} [DecidableEq K] (m : List (K × V)) (k : K) (v : V) :
    Except String (List (K × V)) :=
  match alookup m k with
  | some _ => .error ("duplicate key")
  | none => .ok (m ++ [(k, v)])

/-! Byte helpers (parse_helpers.go). -/

/-- binaryToUint32: big-endian parse of exactly four bytes. -/
def binaryToUint32 (n : Bytes) : Except String Nat :=
  if n.length ≠ 4 then
    .error ("input byte array was incorrect length: " ++ toString n.length ++ " != 4")
  else
    .ok (n.getD 0 0 * 16777216 + n.getD 1 0 * 65536 + n.getD 2 0 * 256 + n.getD 3 0)

/-- binaryToFloat32: validates the four-byte width; every 32-bit pattern is
a float, so the embedding only records success or the length failure (the
decoder stores the raw bytes, never the float value). -/
def binaryToFloat32 (n : Bytes) : Except String Unit :=
  match binaryToUint32 n with
  | .error e => .error e
  | .ok _ => .ok ()

/-- ip4BytesToString: four bytes to dotted-decimal text (net.IP.String). -/
def ip4BytesToString (ip : Bytes) : Except String String :=
  if ip.length ≠ 4 then .error ("ip4 addresses must be 32-bits")
  else
    .ok (toString (ip.getD 0 0) ++ "." ++ toString (ip.getD 1 0) ++ "." ++
      toString (ip.getD 2 0) ++ "." ++ toString (ip.getD 3 0))

/-- Lowercase hexadecimal digit for a value below 16. -/
def hexDigit (n : Nat) : Char :=
  if n < 10 then Char.ofNat (48 + n) else Char.ofNat (97 + (n - 10))

/-- Two lowercase hexadecimal digits of one byte. -/
def byteHexChars (b : Nat) : List Char := [hexDigit (b / 16 % 16), hexDigit (b % 16)]

/-- Hex encoding of a byte string (encoding/hex.EncodeToString). -/
def hexChars (l : Bytes) : List Char := (l.map byteHexChars).flatten

/-- Grouping loop of canonicalHexString: four hex characters per group,
groups separated by dots pkg (mirrors the i += 4 loop including its
behaviour on a final short group). -/
def dotGroup4 (fuel : Nat) (s : List Char) : List Char :=
  match fuel with
  | 0 => s
  | fuel + 1 => if s.length ≤ 4 then s else s.take 4 ++ '.' :: dotGroup4 fuel (s.drop 4)

/-- canonicalHexString: hex encode, then group as xxxx.yyyy.zzzz... . -/
def canonicalHexString (l : Bytes) : String :=
  String.mk (dotGroup4 (l.length + 1) (hexChars l))

/-- Go string(bytes) conversion as used for the hostname TLV; the test
inputs are plain ASCII, for which the byte-per-char reading below agrees
with UTF-8 decoding. -/
def bytesToString (l : Bytes) : String := String.mk (l.map Char.ofNat)

/-- One 16-bit IPv6 group rendered by appendHex: lowercase hex with
leading zeros dropped (a single zero digit for 0). -/
def hexGroup (v : Nat) : List Char :=
  if v = 0 then ['0']
  else (byteHexChars (v / 256) ++ byteHexChars (v % 256)).dropWhile (fun c => c = '0')

/-- Longest run of zero 16-bit groups of length at least two (first such
run wins ties), as computed by net.IP.String; returns group indices
[start, stop) or none. -/
def zeroRunFrom (g : List Nat) (i : Nat) : Nat :=
  match g with
  | [] => i
  | x :: t => if x = 0 then zeroRunFrom t (i + 1) else i

def bestZeroRun (g : List Nat) (i : Nat) (best : Option (Nat × Nat)) : Option (Nat × Nat) :=
  match g with
  | [] => best
  | _ :: t =>
    let j := zeroRunFrom g i
    let best' :=
      if j > i then
        match best with
        | none => some (i, j)
        | some (b0, b1) => if j - i > b1 - b0 then some (i, j) else best
      else best
    bestZeroRun t (i + 1) best'

def ip6Groups (ip : Bytes) : List Nat :=
  [ip.getD 0 0 * 256 + ip.getD 1 0, ip.getD 2 0 * 256 + ip.getD 3 0,
   ip.getD 4 0 * 256 + ip.getD 5 0, ip.getD 6 0 * 256 + ip.getD 7 0,
   ip.getD 8 0 * 256 + ip.getD 9 0, ip.getD 10 0 * 256 + ip.getD 11 0,
   ip.getD 12 0 * 256 + ip.getD 13 0, ip.getD 14 0 * 256 + ip.getD 15 0]

def ip6Render (g : List Nat) (i : Nat) (e0 e1 : Nat) : List Char :=
  match g with
  | [] => []
  | v :: t =>
    if i = e0 then
      ':' :: ':' :: ip6Render (t.drop (e1 - i - 1)) e1 e0 e1
    else
      (if i > 0 ∧ i ≠ e1 then [':'] else []) ++ hexGroup v ++ ip6Render t (i + 1) e0 e1
termination_by g.length
decreasing_by
  all_goals simp [List.length_drop]
  omega

/-- ip6BytesToString: sixteen bytes to canonical IPv6 text per
net.IP.String (dotted IPv4 for v4-mapped addresses, longest zero run
compressed to a double colon otherwise). -/
def ip6BytesToString (ip : Bytes) : Except String String :=
  if ip.length ≠ 16 then .error ("ip6 addresses must be 128-bits")
  else if (ip.take 10).all (fun b => b = 0) ∧ ip.getD 10 0 = 255 ∧ ip.getD 11 0 = 255 then
    ip4BytesToString (ip.drop 12)
  else
    let g := ip6Groups ip
    let (e0, e1) :=
      match bestZeroRun g 0 none with
      | some (b0, b1) => if b1 - b0 ≤ 1 then (9, 9) else (b0, b1)
      | none => (9, 9)
    .ok (String.mk (ip6Render g 0 e0 e1))

/-! The rawTLV record and the TLV splitter (lsdb.go, parse_lsp.go). -/

/-- rawTLV: one extracted type/length/value record. -/
structure RawTLV where
  typ : Nat
  length : Nat
  value : Bytes
deriving DecidableEq, Repr

/-- Re-encoding of a rawTLV: its type byte, length byte and value bytes. -/
def encodeTLV (t : RawTLV) : Bytes := t.typ :: t.length :: t.value

/-- Scanning loop of TLVBytesToTLVs.  The fuel argument only bounds the
recursion depth; the caller passes more fuel than the loop can consume, so
the fuel-exhaustion branch is unreachable. -/
def tlvSplit (fuel : Nat) (b : Bytes) : Except String (List RawTLV) :=
  match fuel, b with
  | _, [] => .ok []
  | 0, _ :: _ => .error ("out of fuel")
  | _ + 1, [_] =>
    .error ("invalid length of TLVs, got a TLV with type and no length")
  | fuel + 1, t :: l :: rest =>
    if l > rest.length then
      .error ("invalid length of TLVs, overflowed buffer")
    else
      match tlvSplit fuel (rest.drop l) with
      | .error e => .error e
      | .ok tlvs => .ok ({ typ := t, length := l, value := rest.take l } :: tlvs)

/-- TLVBytesToTLVs: split a byte range into an ordered list of rawTLVs,
failing on a type byte with no length byte and on a declared length that
runs past the end of the input. -/
def TLVBytesToTLVs (b : Bytes) : Except String (List RawTLV) :=
  tlvSplit (b.length + 1) b

/-- A byte string in which some sequentially carved record is truncated:
either a final type byte with no length byte, or a declared length running
past the end of the input (possibly after earlier well-formed records). -/
inductive TruncatedTLVs : Bytes → Prop where
  | noLength (t : Nat) : TruncatedTLVs [t]
  | overflow (t l : Nat) (rest : Bytes) : rest.length < l → TruncatedTLVs (t :: l :: rest)
  | tail (t l : Nat) (rest : Bytes) :
      l ≤ rest.length → TruncatedTLVs (rest.drop l) → TruncatedTLVs (t :: l :: rest)

/-! Enumerations of the OpenConfig model referenced by the decoder. -/

inductive TlvType where
  | AREA_ADDRESSES | EXTENDED_IS_REACHABILITY | NLPID | IPV4_INTERFACE_ADDRESSES
  | IPV4_TE_ROUTER_ID | EXTENDED_IPV4_REACHABILITY | DYNAMIC_NAME
  | IPV6_INTERFACE_ADDRESSES | IPV6_REACHABILITY | ROUTER_CAPABILITY
deriving DecidableEq, Repr

inductive LspFlag where
  | PARTITION_REPAIR | ATTACHED_ERROR | ATTACHED_EXPENSE | ATTACHED_DELAY
  | ATTACHED_DEFAULT | OVERLOAD
deriving DecidableEq, Repr

inductive NlpidProto where
  | IPV4 | IPV6
deriving DecidableEq, Repr

inductive CapabilityFlag where
  | DOWN | FLOOD
deriving DecidableEq, Repr

inductive SRCapabilityFlag where
  | IPV4_MPLS | IPV6_MPLS
deriving DecidableEq, Repr

inductive SRAlgorithm where
  | SPF | STRICT_SPF
deriving DecidableEq, Repr

inductive PfxSidFlag where
  | READVERTISEMENT | NODE | NO_PHP | EXPLICIT_NULL | VALUE | LOCAL
deriving DecidableEq, Repr

inductive AdjSidFlag where
  | ADDRESS_FAMILY | BACKUP | VALUE | LOCAL | SET
deriving DecidableEq, Repr

inductive LanAdjSidFlag where
  | ADDRESS_FAMILY | BACKUP | VALUE | LOCAL | SET
deriving DecidableEq, Repr

inductive CapSubtlvType where
  | SR_ALGORITHM | SR_CAPABILITY
deriving DecidableEq, Repr

inductive ISReachSubtlvType where
  | ADMIN_GROUP | LINK_ID | IPV4_INTERFACE_ADDRESS | IPV4_NEIGHBOR_ADDRESS
  | MAX_LINK_BANDWIDTH | MAX_RESERVABLE_BANDWIDTH | UNRESERVED_BANDWIDTH
  | ADJ_SID | ADJ_LAN_SID | RESIDUAL_BANDWIDTH
deriving DecidableEq, Repr

inductive IPReachSubtlvType where
  | PREFIX_SID
deriving DecidableEq, Repr

/-! The OpenConfig LSP tree, restricted to the containers the decoder
populates.  Keyed YANG lists (Go maps in the generated code) are modelled
as association lists; the generated New*/Append* constructors reject an
existing key, GetOrCreate* helpers create missing entries. -/

/-- One prefix-SID list entry (keyed by its value). -/
structure PfxSid where
  value : Nat
  algorithm : Nat
  flags : List PfxSidFlag
deriving DecidableEq, Repr

/-- Sub-TLV container of an IP reachability prefix entry. -/
structure IPReachSubtlv where
  typ : IPReachSubtlvType
  prefixSid : List (Nat × PfxSid)
deriving DecidableEq, Repr

/-- One Extended IPv4 Reachability prefix entry (keyed by its a.b.c.d/N
text). -/
structure V4Pfx where
  pfx : String
  metric : Nat
  sBit : Bool
  upDown : Bool
  subtlv : List (IPReachSubtlvType × IPReachSubtlv)
deriving DecidableEq, Repr

/-- One IPv6 Reachability prefix entry (keyed by its addr/N text). -/
structure V6Pfx where
  pfx : String
  metric : Nat
  sBit : Bool
  upDown : Bool
  xBit : Bool
  subtlv : List (IPReachSubtlvType × IPReachSubtlv)
deriving DecidableEq, Repr

/-- One adjacency-SID list entry. -/
structure AdjacencySid where
  value : Nat
  flags : List AdjSidFlag
  weight : Nat
deriving DecidableEq, Repr

/-- One LAN adjacency-SID list entry. -/
structure LanAdjacencySid where
  value : Nat
  flags : List LanAdjSidFlag
  weight : Nat
  neighborId : String
deriving DecidableEq, Repr

/-- LinkId container of the link local/remote identifier sub-TLV. -/
structure LinkId where
  Local : Nat
  Remote : Nat
deriving DecidableEq, Repr

/-- One sub-TLV entry of an Extended IS Reachability neighbor instance
(keyed by sub-TLV type); the per-variant containers are flattened into
optional fields and lists. -/
structure NISubtlv where
  typ : ISReachSubtlvType
  adminGroup : List Nat
  linkId : Option LinkId
  ipv4InterfaceAddress : List String
  ipv4NeighborAddress : List String
  maxLinkBandwidth : Option Bytes
  maxReservableLinkBandwidth : Option Bytes
  residualBandwidth : Option Bytes
  setupPriority : List (Nat × Bytes)
  adjacencySid : List (Nat × AdjacencySid)
  lanAdjacencySid : List (Nat × LanAdjacencySid)
deriving DecidableEq, Repr

/-- Fresh sub-TLV entry for a neighbor instance. -/
def emptyNISubtlv (t : ISReachSubtlvType) : NISubtlv :=
  { typ := t, adminGroup := [], linkId := none, ipv4InterfaceAddress := [],
    ipv4NeighborAddress := [], maxLinkBandwidth := none,
    maxReservableLinkBandwidth := none, residualBandwidth := none,
    setupPriority := [], adjacencySid := [], lanAdjacencySid := [] }

/-- One instance of an Extended IS Reachability neighbor (keyed by the
synthesized instance number). -/
structure NeighborInstance where
  id : Nat
  metric : Option Nat
  subtlv : List (ISReachSubtlvType × NISubtlv)
deriving DecidableEq, Repr

/-- One Extended IS Reachability neighbor (keyed by system-ID text). -/
structure Neighbor where
  systemId : String
  Instance : List (Nat × NeighborInstance)
deriving DecidableEq, Repr

/-- One SRGB descriptor (keyed by its sequential descriptor number). -/
structure SrgbDescriptor where
  range : Nat
  label : Nat
deriving DecidableEq, Repr

/-- SegmentRoutingCapability container of capability sub-TLV 2. -/
structure SRCapability where
  flags : List SRCapabilityFlag
  srgbDescriptor : List (Nat × SrgbDescriptor)
deriving DecidableEq, Repr

/-- One sub-TLV entry of a Router Capability instance (keyed by type). -/
structure CapSubtlv where
  typ : CapSubtlvType
  segmentRoutingAlgorithms : Option (List SRAlgorithm)
  segmentRoutingCapability : Option SRCapability
deriving DecidableEq, Repr

/-- One Router Capability list entry (keyed by instance number). -/
structure Capability where
  instanceNumber : Nat
  routerId : Option String
  flags : List CapabilityFlag
  subtlv : List (CapSubtlvType × CapSubtlv)
deriving DecidableEq, Repr

/-- ExtendedIsReachability container. -/
structure ExtISReach where
  neighbor : List (String × Neighbor)
deriving DecidableEq, Repr

/-- ExtendedIpv4Reachability container. -/
structure ExtIPv4Reach where
  prefixes : List (String × V4Pfx)
deriving DecidableEq, Repr

/-- Ipv6Reachability container. -/
structure IPv6Reach where
  prefixes : List (String × V6Pfx)
deriving DecidableEq, Repr

/-- One TLV container of the LSP (keyed by TLV type); the per-type
containers are optional fields, absent until initialised. -/
structure Tlv where
  typ : TlvType
  hostname : Option (List String)
  areaAddress : Option (List String)
  nlpid : Option (List NlpidProto)
  ipv4InterfaceAddresses : Option (List String)
  ipv6InterfaceAddresses : Option (List String)
  ipv4TeRouterId : Option (List String)
  capability : List (Nat × Capability)
  extendedIsReachability : Option ExtISReach
  extendedIpv4Reachability : Option ExtIPv4Reach
  ipv6Reachability : Option IPv6Reach
deriving DecidableEq, Repr

/-- Fresh TLV container of the given type, all containers absent. -/
def newTlvRec (t : TlvType) : Tlv :=
  { typ := t, hostname := none, areaAddress := none, nlpid := none,
    ipv4InterfaceAddresses := none, ipv6InterfaceAddresses := none,
    ipv4TeRouterId := none, capability := [], extendedIsReachability := none,
    extendedIpv4Reachability := none, ipv6Reachability := none }

/-- The decoded LSP. -/
structure Lsp where
  lspId : Option String
  sequenceNumber : Nat
  checksum : Nat
  flags : List LspFlag
  tlv : List (TlvType × Tlv)
deriving DecidableEq, Repr

/-! Container names of the const block of parse_lsp.go, and the
ygot.InitContainer step keyed by them. -/

def dynamicNameContainer : String := "Hostname"
def areaAddressContainer : String := "AreaAddress"
def ipv4InterfaceAddressContainer : String := "Ipv4InterfaceAddresses"
def nlpidContainer : String := "Nlpid"
def ipv6InterfaceAddressContainer : String := "Ipv6InterfaceAddresses"
def routerCapabilityContainer : String := "Capability"
def ipv6ReachabilityContainer : String := "Ipv6Reachability"
def ipv4TERouterIDContainer : String := "Ipv4TeRouterId"
def extendedISReachabilityContainer : String := "ExtendedIsReachability"
def extendedIPv4ReachabilityContainer : String := "ExtendedIpv4Reachability"

/-- ygot.InitContainer on a TLV struct: creates the named empty container. -/
def initContainer (tlv : Tlv) (c : String) : Tlv :=
  if c = dynamicNameContainer then { tlv with hostname := some [] }
  else if c = areaAddressContainer then { tlv with areaAddress := some [] }
  else if c = nlpidContainer then { tlv with nlpid := some [] }
  else if c = ipv4InterfaceAddressContainer then { tlv with ipv4InterfaceAddresses := some [] }
  else if c = ipv6InterfaceAddressContainer then { tlv with ipv6InterfaceAddresses := some [] }
  else if c = ipv4TERouterIDContainer then { tlv with ipv4TeRouterId := some [] }
  else if c = ipv6ReachabilityContainer then { tlv with ipv6Reachability := some { prefixes := [] } }
  else if c = extendedISReachabilityContainer then { tlv with extendedIsReachability := some { neighbor := [] } }
  else if c = extendedIPv4ReachabilityContainer then { tlv with extendedIpv4Reachability := some { prefixes := [] } }
  else tlv

/-- getTLV: fetch the TLV container of a type, creating it when absent
(the NewTlv duplicate-key failure is unreachable because existence was
just checked); returns the container and whether it was created. -/
def getTLV (i : Lsp) (t : TlvType) : Lsp × Tlv × Bool :=
  match alookup i.tlv t with
  | some tlv => (i, tlv, false)
  | none =>
    let tlv := newTlvRec t
    ({ i with tlv := aset i.tlv t tlv }, tlv, true)

/-- getTLVAndInit: getTLV followed, on creation, by initContainer. -/
def getTLVAndInit (i : Lsp) (t : TlvType) (c : String) : Lsp × Tlv :=
  match getTLV i t with
  | (i', tlv, created) =>
    if created then
      let tlv' := initContainer tlv c
      ({ i' with tlv := aset i'.tlv t tlv' }, tlv')
    else (i', tlv)

/-- Store an updated TLV container back into the LSP. -/
def setTLV (i : Lsp) (t : TlvType) (tlv : Tlv) : Lsp :=
  { i with tlv := aset i.tlv t tlv }

/-! Bit-position constants of parse_lsp.go (bit0 is the most significant
bit of a byte). -/

def bit0 : Nat := 0x80
def bit1 : Nat := 0x40
def bit2 : Nat := 0x20
def bit3 : Nat := 0x10
def bit4 : Nat := 0x8
def bit5 : Nat := 0x4
def bit6 : Nat := 0x2
def bit7 : Nat := 0x1

/-- The bit-to-flag table of parseLSPFlags, in the textual order of the
source.  The Go code builds it as a map and iterates it with range, whose
order is unspecified; parseLSPFlagsWith below therefore takes the
iteration order as an argument, and a legitimate execution is any order
that is a permutation of this table. -/
def lspFlagBitmap : List (Nat × LspFlag) :=
  [(bit0, .PARTITION_REPAIR), (bit1, .ATTACHED_ERROR), (bit2, .ATTACHED_EXPENSE),
   (bit3, .ATTACHED_DELAY), (bit4, .ATTACHED_DEFAULT), (bit5, .OVERLOAD)]

/-- parseLSPFlags under a given iteration order of the bitmap: appends the
flag of every bit that is set in attrs. -/
def parseLSPFlagsWith (order : List (Nat × LspFlag)) (attrs : Nat) : List LspFlag :=
  order.filterMap (fun p => if attrs &&& p.1 ≠ 0 then some p.2 else none)

/-- parseLSPFlags under the textual order of the bitmap. -/
def parseLSPFlags (attrs : Nat) : List LspFlag :=
  parseLSPFlagsWith lspFlagBitmap attrs

/-! Prefix-SID sub-TLV (sub-TLV 3 of the IP reachability TLVs). -/

/-- The internal prefixSIDSubTLV record of parse_lsp.go. -/
structure PfxSIDSubTLV where
  Algorithm : Nat
  Value : Nat
  Flags : List PfxSidFlag
deriving DecidableEq, Repr

/-- parsePrefixSIDSubTLV.  After checking only that at least 4 value bytes
are present (5 when the VALUE flag is set), the index branch slices
Value[2:6], which for a 4- or 5-byte value reaches past the end of the
value; the GoOut layer records that access. -/
def parsePrefixSIDSubTLV (r : RawTLV) : GoOut (Except String PfxSIDSubTLV) :=
  if r.value.length < 4 then
    .ok (.error ("invalid Prefix-SID subTLV, invalid length: " ++ toString r.value.length))
  else
    let b0 := r.value.getD 0 0
    let fl0 : List PfxSidFlag := if b0 &&& bit0 ≠ 0 then [.READVERTISEMENT] else []
    let fl1 := if b0 &&& bit1 ≠ 0 then fl0 ++ [.NODE] else fl0
    let fl2 := if b0 &&& bit2 ≠ 0 then fl1 ++ [.NO_PHP] else fl1
    let fl3 := if b0 &&& bit3 ≠ 0 then fl2 ++ [.EXPLICIT_NULL] else fl2
    let isLabel := b0 &&& bit4 ≠ 0
    if isLabel ∧ r.value.length < 5 then
      .ok (.error ("invalid Prefix-SID subTLV, invalid length for index: " ++ toString r.value.length))
    else
      let fl4 := if isLabel then fl3 ++ [.VALUE] else fl3
      let fl5 := if b0 &&& bit5 ≠ 0 then fl4 ++ [.LOCAL] else fl4
      let alg := r.value.getD 1 0
      if !isLabel then
        do
          let sidBytes ← goSlice r.value 2 6
          match binaryToUint32 sidBytes with
          | .error e => pure (.error e)
          | .ok sidv => pure (.ok { Algorithm := alg, Value := sidv, Flags := fl5 })
      else
        match binaryToUint32 [0, r.value.getD 2 0, r.value.getD 3 0, r.value.getD 4 0] with
        | .error e => .ok (.error e)
        | .ok sidv => .ok (.ok { Algorithm := alg, Value := sidv, Flags := fl5 })

/-- addExtendedIPReachabilityPrefixSID / addIPv6ReachabilityPrefixSID,
common part: NewSubtlv(PREFIX_SID) (failing when that sub-TLV type
already exists), then NewPrefixSid keyed by the SID value, then the
algorithm and flag assignments. -/
def addPfxSidToSubtlvs (sub : List (IPReachSubtlvType × IPReachSubtlv)) (p : PfxSIDSubTLV) :
    Except String (List (IPReachSubtlvType × IPReachSubtlv)) :=
  match alookup sub IPReachSubtlvType.PREFIX_SID with
  | some _ => .error ("duplicate key")
  | none =>
    .ok (sub ++ [(IPReachSubtlvType.PREFIX_SID,
      { typ := IPReachSubtlvType.PREFIX_SID,
        prefixSid := [(p.Value, { value := p.Value, algorithm := p.Algorithm, flags := p.Flags })] })])

/-! Extended IS Reachability sub-TLV parsers. -/

/-- parseAdministrativeGroupSubTLV: sub-TLV 3, a 4-byte bitmask. -/
def parseAdministrativeGroupSubTLV (r : RawTLV) : Except String Nat :=
  binaryToUint32 r.value

/-- parseLinkLocalRemoteSubTLV: sub-TLV 4, two 4-byte identifiers. -/
def parseLinkLocalRemoteSubTLV (r : RawTLV) : Except String (Nat × Nat) :=
  if r.length ≠ 8 ∨ r.value.length ≠ 8 then
    .error ("invalid length for link local/remote identifier sub-TLV " ++ toString r.value.length)
  else
    match binaryToUint32 (r.value.take 4) with
    | .error _ => .error ("invalid contents of local identifier")
    | .ok localId =>
      match binaryToUint32 (r.value.drop 4) with
      | .error _ => .error ("invalid contents of remote identifier")
      | .ok remoteId => .ok (localId, remoteId)

/-- parseIPv4InterfaceSubTLV: sub-TLV 6 or 8, one IPv4 address. -/
def parseIPv4InterfaceSubTLV (r : RawTLV) : Except String String :=
  if r.value.length ≠ 4 then
    .error ("IPv4 interface sub-TLV had incorrect length: " ++ toString r.value.length ++ " != 4")
  else
    ip4BytesToString r.value

/-- parseLinkBandwidthSubTLV: sub-TLV 9, 10 or 38, a 4-byte float kept as
raw bytes. -/
def parseLinkBandwidthSubTLV (r : RawTLV) : Except String Bytes :=
  match binaryToFloat32 r.value with
  | .error e => .error e
  | .ok _ => .ok r.value

/-- Chunking loop of parseUnreservedBandwidthSubTLV: eight 4-byte floats
keyed by priority 0 through 7 in order. -/
def unresBWChunks (v : Bytes) (i : Nat) (out : List (Nat × Bytes)) (fuel : Nat) :
    Except String (List (Nat × Bytes)) :=
  match fuel with
  | 0 => .ok out
  | fuel + 1 =>
    if i < 32 then
      match binaryToFloat32 ((v.drop i).take 4) with
      | .error _ =>
        .error ("invalid unreserved bandwidth at priority level " ++ toString out.length)
      | .ok _ => unresBWChunks v (i + 4) (out ++ [(out.length, (v.drop i).take 4)]) fuel
    else .ok out

/-- parseUnreservedBandwidthSubTLV: sub-TLV 11, exactly 32 bytes. -/
def parseUnreservedBandwidthSubTLV (r : RawTLV) : Except String (List (Nat × Bytes)) :=
  if r.length ≠ 32 ∨ r.value.length ≠ 32 then
    .error ("invalid length for unreserved bandwidth TLV " ++ toString r.length)
  else
    unresBWChunks r.value 0 [] 9

/-- adjSIDFlags: flag byte of the Adj-SID sub-TLV; also returns whether
the VALUE and LOCAL bits are set (in that order). -/
def adjSIDFlags (flagByte : Nat) : List AdjSidFlag × Bool × Bool :=
  let f0 : List AdjSidFlag := if flagByte &&& bit0 ≠ 0 then [.ADDRESS_FAMILY] else []
  let f1 := if flagByte &&& bit1 ≠ 0 then f0 ++ [.BACKUP] else f0
  let isValue := flagByte &&& bit2 ≠ 0
  let f2 := if isValue then f1 ++ [.VALUE] else f1
  let isLocal := flagByte &&& bit3 ≠ 0
  let f3 := if isLocal then f2 ++ [.LOCAL] else f2
  let f4 := if flagByte &&& bit4 ≠ 0 then f3 ++ [.SET] else f3
  (f4, isValue, isLocal)

/-- lanAdjSIDFlags: flag byte of the LAN Adj-SID sub-TLV. -/
def lanAdjSIDFlags (flagByte : Nat) : List LanAdjSidFlag × Bool × Bool :=
  let f0 : List LanAdjSidFlag := if flagByte &&& bit0 ≠ 0 then [.ADDRESS_FAMILY] else []
  let f1 := if flagByte &&& bit1 ≠ 0 then f0 ++ [.BACKUP] else f0
  let isValue := flagByte &&& bit2 ≠ 0
  let f2 := if isValue then f1 ++ [.VALUE] else f1
  let isLocal := flagByte &&& bit3 ≠ 0
  let f3 := if isLocal then f2 ++ [.LOCAL] else f2
  let f4 := if flagByte &&& bit4 ≠ 0 then f3 ++ [.SET] else f3
  (f4, isValue, isLocal)

/-- adjSIDValue: the SID value of an adjacency SID sub-TLV.  A 3-byte MPLS
label when both VALUE and LOCAL are set, a 4-byte index when both are
clear, an error otherwise or on a byte count different from the deduced
width. -/
def adjSIDValue (valbytes : Bytes) (isValue isLocal : Bool) : Except String Nat :=
  if isValue && isLocal then
    if valbytes.length ≠ 3 then
      .error ("invalid length for adjacency SID containing label " ++ toString valbytes.length)
    else
      match binaryToUint32 (0 :: valbytes) with
      | .error _ => .error ("invalid label in adjacency SID subTLV")
      | .ok value => .ok value
  else if !isValue && !isLocal then
    if valbytes.length ≠ 4 then
      .error ("invalid length for adjacency SID containing index " ++ toString valbytes.length)
    else
      match binaryToUint32 (valbytes.take 4) with
      | .error _ => .error ("invalid index for adjacency SID subTLV")
      | .ok value => .ok value
  else
    .error ("invalid combination of value and local flagByte")

/-- parseAdjSIDSubTLV: sub-TLV 31 (the source binds the two booleans
returned by adjSIDFlags in swapped order, which adjSIDValue only uses
symmetrically). -/
def parseAdjSIDSubTLV (r : RawTLV) : Except String AdjacencySid :=
  if r.value.length < 5 then
    .error ("invalid length for adjacency SID " ++ toString r.value.length ++ " bytes")
  else
    match adjSIDFlags (r.value.getD 0 0) with
    | (flags, isLocal, isValue) =>
      match binaryToUint32 [0, 0, 0, r.value.getD 1 0] with
      | .error _ => .error ("cannot parse weight in adjacency SID")
      | .ok weight =>
        match adjSIDValue (r.value.drop 2) isValue isLocal with
        | .error e => .error e
        | .ok value => .ok { value := value, flags := flags, weight := weight % 256 }

/-- parseLANAdjSIDSubTLV: sub-TLV 32, with a 6-byte neighbor system ID
between the weight and the value. -/
def parseLANAdjSIDSubTLV (r : RawTLV) : Except String LanAdjacencySid :=
  if r.value.length < 8 then
    .error ("invalid length for LAN AdjSID subTLV " ++ toString r.value.length)
  else
    match lanAdjSIDFlags (r.value.getD 0 0) with
    | (flags, isLocal, isValue) =>
      match binaryToUint32 [0, 0, 0, r.value.getD 1 0] with
      | .error _ => .error ("cannot parse weight in LAN adjacency SID")
      | .ok weight =>
        let neighID := canonicalHexString ((r.value.take 8).drop 2)
        match adjSIDValue (r.value.drop 8) isValue isLocal with
        | .error e => .error e
        | .ok value =>
          .ok { value := value, flags := flags, weight := weight % 256, neighborId := neighID }

/-! The per-neighbor-instance sub-TLV dispatcher
(parseExtendedISReachSubTLVs). -/

/-- GetOrCreateSubtlv on a neighbor instance. -/
def getOrCreateNISubtlv (n : NeighborInstance) (t : ISReachSubtlvType) :
    NeighborInstance × NISubtlv :=
  match alookup n.subtlv t with
  | some s => (n, s)
  | none =>
    let s := emptyNISubtlv t
    ({ n with subtlv := aset n.subtlv t s }, s)

/-- getExtendedISReachSubTLV: get-or-create plus InitContainer; the
container initialisation is invisible in the flattened NISubtlv record. -/
def getExtendedISReachSubTLV (n : NeighborInstance) (t : ISReachSubtlvType) (_c : String) :
    NeighborInstance × NISubtlv :=
  getOrCreateNISubtlv n t

/-- Store an updated sub-TLV entry back into a neighbor instance. -/
def setNISubtlv (n : NeighborInstance) (t : ISReachSubtlvType) (s : NISubtlv) :
    NeighborInstance :=
  { n with subtlv := aset n.subtlv t s }

/-- AppendSetupPriority loop of the unreserved-bandwidth case: appends
each priority/bandwidth pair, collecting (unreachable) duplicate-key
errors. -/
def appendSetupPriorities (st : NISubtlv) (l : List (Nat × Bytes)) (errs : List String) :
    NISubtlv × List String :=
  match l with
  | [] => (st, errs)
  | (pri, bw) :: t =>
    match keyedAppend st.setupPriority pri bw with
    | .error e =>
      appendSetupPriorities st t (errs ++ ["error adding bandwidth at priority level " ++ toString pri ++ " - " ++ e])
    | .ok sp => appendSetupPriorities { st with setupPriority := sp } t errs

/-- One iteration of the switch of parseExtendedISReachSubTLVs: returns
the updated instance and the diagnostics added for this sub-TLV. -/
def parseExtISSubStep (n : NeighborInstance) (s : RawTLV) : NeighborInstance × List String :=
  match s.typ with
  | 3 =>
    match parseAdministrativeGroupSubTLV s with
    | .error e => (n, [e])
    | .ok a =>
      match getExtendedISReachSubTLV n .ADMIN_GROUP ("AdminGroup") with
      | (n1, tlv) => (setNISubtlv n1 .ADMIN_GROUP { tlv with adminGroup := tlv.adminGroup ++ [a] }, [])
  | 4 =>
    match parseLinkLocalRemoteSubTLV s with
    | .error e => (n, [e])
    | .ok (localId, remoteId) =>
      match getOrCreateNISubtlv n .LINK_ID with
      | (n1, tlv) =>
        (setNISubtlv n1 .LINK_ID { tlv with linkId := some { Local := localId, Remote := remoteId } }, [])
  | 6 =>
    match parseIPv4InterfaceSubTLV s with
    | .error e => (n, [e])
    | .ok a =>
      match getExtendedISReachSubTLV n .IPV4_INTERFACE_ADDRESS ("Ipv4InterfaceAddress") with
      | (n1, tlv) =>
        (setNISubtlv n1 .IPV4_INTERFACE_ADDRESS
          { tlv with ipv4InterfaceAddress := tlv.ipv4InterfaceAddress ++ [a] }, [])
  | 8 =>
    match parseIPv4InterfaceSubTLV s with
    | .error e => (n, [e])
    | .ok a =>
      match getExtendedISReachSubTLV n .IPV4_NEIGHBOR_ADDRESS ("Ipv4NeighborAddress") with
      | (n1, tlv) =>
        (setNISubtlv n1 .IPV4_NEIGHBOR_ADDRESS
          { tlv with ipv4NeighborAddress := tlv.ipv4NeighborAddress ++ [a] }, [])
  | 9 =>
    match parseLinkBandwidthSubTLV s with
    | .error e => (n, [e])
    | .ok b =>
      match getExtendedISReachSubTLV n .MAX_LINK_BANDWIDTH ("MaxLinkBandwidth") with
      | (n1, tlv) => (setNISubtlv n1 .MAX_LINK_BANDWIDTH { tlv with maxLinkBandwidth := some b }, [])
  | 10 =>
    match parseLinkBandwidthSubTLV s with
    | .error e => (n, [e])
    | .ok b =>
      match getExtendedISReachSubTLV n .MAX_RESERVABLE_BANDWIDTH ("MaxReservableLinkBandwidth") with
      | (n1, tlv) =>
        (setNISubtlv n1 .MAX_RESERVABLE_BANDWIDTH { tlv with maxReservableLinkBandwidth := some b }, [])
  | 11 =>
    match parseUnreservedBandwidthSubTLV s with
    | .error e => (n, [e])
    | .ok ubw =>
      match alookup n.subtlv .UNRESERVED_BANDWIDTH with
      | some _ => (n, ["duplicate key"])
      | none =>
        match appendSetupPriorities (emptyNISubtlv .UNRESERVED_BANDWIDTH) ubw [] with
        | (st, errs) => (setNISubtlv n .UNRESERVED_BANDWIDTH st, errs)
  | 31 =>
    match parseAdjSIDSubTLV s with
    | .error e => (n, [e])
    | .ok adjs =>
      match getOrCreateNISubtlv n .ADJ_SID with
      | (n1, st) =>
        match keyedAppend st.adjacencySid adjs.value adjs with
        | .error e => (n1, [e])
        | .ok l => (setNISubtlv n1 .ADJ_SID { st with adjacencySid := l }, [])
  | 32 =>
    match parseLANAdjSIDSubTLV s with
    | .error e => (n, [e])
    | .ok adjs =>
      match getOrCreateNISubtlv n .ADJ_LAN_SID with
      | (n1, st) =>
        match keyedAppend st.lanAdjacencySid adjs.value adjs with
        | .error e => (n1, [e])
        | .ok l => (setNISubtlv n1 .ADJ_LAN_SID { st with lanAdjacencySid := l }, [])
  | 38 =>
    match parseLinkBandwidthSubTLV s with
    | .error e => (n, [e])
    | .ok b =>
      match getExtendedISReachSubTLV n .RESIDUAL_BANDWIDTH ("ResidualBandwidth") with
      | (n1, tlv) => (setNISubtlv n1 .RESIDUAL_BANDWIDTH { tlv with residualBandwidth := some b }, [])
  | _ => (n, [])

/-- parseExtendedISReachSubTLVs: run the dispatcher over every sub-TLV of
a neighbor instance, concatenating diagnostics. -/
def parseExtendedISReachSubTLVs (n : NeighborInstance) (subTLVs : List RawTLV) :
    NeighborInstance × List String :=
  match subTLVs with
  | [] => (n, [])
  | s :: rest =>
    match parseExtISSubStep n s with
    | (n1, errs) =>
      match parseExtendedISReachSubTLVs n1 rest with
      | (n2, errs2) => (n2, errs ++ errs2)

/-! Top-level TLV processors.  Each takes the in-progress LSP and one raw
TLV and returns the (possibly partially) mutated LSP together with the
error list the Go processor returns (empty list standing for a nil
error).  Processors whose code can hit a runtime panic live in GoOut. -/

/-- processDynamicNameTLV (TLV 137). -/
def processDynamicNameTLV (i : Lsp) (r : RawTLV) : Lsp × List String :=
  match getTLVAndInit i .DYNAMIC_NAME dynamicNameContainer with
  | (i1, tlv) =>
    let h := tlv.hostname.getD [] ++ [bytesToString r.value]
    (setTLV i1 .DYNAMIC_NAME { tlv with hostname := some h }, [])

/-- Scanning loop of processAreaAddressTLV: a 1-byte address length
followed by that many address bytes, repeated.  For a zero address length
Go reads Value[x+1] (when x+1 equals the length this is an out-of-range
index) or slices Value[x+2:x+1] (an inverted slice); both panic. -/
def areaAddrLoop (v : Bytes) (x : Nat) (acc : List String) (fuel : Nat) :
    GoOut (List String × List String) :=
  match fuel with
  | 0 => .diverge
  | fuel + 1 =>
    if x < v.length then do
      let addrLen ← goIndex v x
      let endPos := x + 1 + addrLen
      if endPos > v.length then
        pure (acc, ["invalid length of address, " ++ toString addrLen ++ ", overflows TLV length " ++ toString v.length])
      else do
        let b1 ← goIndex v (x + 1)
        let rest ← goSlice v (x + 2) endPos
        areaAddrLoop v endPos (acc ++ [canonicalHexString [b1] ++ "." ++ canonicalHexString rest]) fuel
    else pure (acc, [])

/-- processAreaAddressTLV (TLV 1). -/
def processAreaAddressTLV (i : Lsp) (r : RawTLV) : GoOut (Lsp × List String) :=
  match getTLVAndInit i .AREA_ADDRESSES areaAddressContainer with
  | (i1, tlv) => do
    let (addrs, errs) ← areaAddrLoop r.value 0 (tlv.areaAddress.getD []) (r.value.length + 1)
    pure (setTLV i1 .AREA_ADDRESSES { tlv with areaAddress := some addrs }, errs)

/-- Byte loop of processNLPIDTLV: 0xCC is IPv4, 0x8E is IPv6, anything
else a soft diagnostic. -/
def nlpidLoop (v : Bytes) (acc : List NlpidProto) (errs : List String) :
    List NlpidProto × List String :=
  match v with
  | [] => (acc, errs)
  | b :: t =>
    if b = 0xCC then nlpidLoop t (acc ++ [.IPV4]) errs
    else if b = 0x8E then nlpidLoop t (acc ++ [.IPV6]) errs
    else nlpidLoop t acc (errs ++ ["unknown NLPID specified: " ++ toString b])

/-- processNLPIDTLV (TLV 129). -/
def processNLPIDTLV (i : Lsp) (r : RawTLV) : Lsp × List String :=
  match getTLVAndInit i .NLPID nlpidContainer with
  | (i1, tlv) =>
    match nlpidLoop r.value (tlv.nlpid.getD []) [] with
    | (acc, errs) => (setTLV i1 .NLPID { tlv with nlpid := some acc }, errs)

/-- Address loop of processIPInterfaceAddressTLV: consecutive 4-byte
addresses (the non-multiple-of-4 leftover case is excluded before the
loop runs). -/
def v4IfaceLoop (v : Bytes) (acc : List String) (errs : List String) :
    List String × List String :=
  match v with
  | b0 :: b1 :: b2 :: b3 :: t =>
    match ip4BytesToString [b0, b1, b2, b3] with
    | .error e => v4IfaceLoop t acc (errs ++ [e])
    | .ok a => v4IfaceLoop t (acc ++ [a]) errs
  | _ => (acc, errs)

/-- processIPInterfaceAddressTLV (TLV 132). -/
def processIPInterfaceAddressTLV (i : Lsp) (r : RawTLV) : Lsp × List String :=
  match getTLVAndInit i .IPV4_INTERFACE_ADDRESSES ipv4InterfaceAddressContainer with
  | (i1, tlv) =>
    if r.value.length % 4 ≠ 0 then
      (i1, ["invalid IPv4 interface address TLV, length was not a multiple of 4: " ++ toString r.value.length])
    else
      match v4IfaceLoop r.value (tlv.ipv4InterfaceAddresses.getD []) [] with
      | (acc, errs) =>
        (setTLV i1 .IPV4_INTERFACE_ADDRESSES { tlv with ipv4InterfaceAddresses := some acc }, errs)

/-- Address loop of processIPv6InterfaceAddressTLV: consecutive 16-byte
addresses; unlike the IPv4 loop, a conversion error aborts the TLV. -/
def v6IfaceLoop (v : Bytes) (acc : List String) : Except String (List String) :=
  match v with
  | b0 :: b1 :: b2 :: b3 :: b4 :: b5 :: b6 :: b7 :: b8 :: b9 :: b10 :: b11 :: b12 :: b13 :: b14 :: b15 :: t =>
    match ip6BytesToString [b0, b1, b2, b3, b4, b5, b6, b7, b8, b9, b10, b11, b12, b13, b14, b15] with
    | .error e => .error e
    | .ok a => v6IfaceLoop t (acc ++ [a])
  | _ => .ok acc

/-- processIPv6InterfaceAddressTLV (TLV 232). -/
def processIPv6InterfaceAddressTLV (i : Lsp) (r : RawTLV) : Lsp × List String :=
  match getTLVAndInit i .IPV6_INTERFACE_ADDRESSES ipv6InterfaceAddressContainer with
  | (i1, tlv) =>
    if r.value.length % 16 ≠ 0 then
      (i1, ["invalid IPv6 interface address TLV, length was not a multiple of 16: " ++ toString r.value.length])
    else
      match v6IfaceLoop r.value (tlv.ipv6InterfaceAddresses.getD []) with
      | .error e => (i1, [e])
      | .ok acc =>
        (setTLV i1 .IPV6_INTERFACE_ADDRESSES { tlv with ipv6InterfaceAddresses := some acc }, [])

/-- processTERouterIDTLV (TLV 134): the length is checked before the TLV
container is created. -/
def processTERouterIDTLV (i : Lsp) (r : RawTLV) : Lsp × List String :=
  if r.value.length < 4 ∨ r.value.length > 4 then
    (i, ["invalid length Router ID TLV: " ++ toString r.value.length])
  else
    match getTLVAndInit i .IPV4_TE_ROUTER_ID ipv4TERouterIDContainer with
    | (i1, tlv) =>
      match ip4BytesToString (r.value.take 4) with
      | .error e => (i1, [e])
      | .ok ip4 =>
        (setTLV i1 .IPV4_TE_ROUTER_ID
          { tlv with ipv4TeRouterId := some (tlv.ipv4TeRouterId.getD [] ++ [ip4]) }, [])

/-! Router Capability TLV (242) and its sub-TLVs. -/

/-- Fresh Router Capability list entry for NewCapability. -/
def emptyCapability (n : Nat) : Capability :=
  { instanceNumber := n, routerId := none, flags := [], subtlv := [] }

/-- getCapabilitySubTLV: fetch or create a capability sub-TLV entry. -/
def getCapabilitySubTLV (c : Capability) (t : CapSubtlvType) : Capability × CapSubtlv :=
  match alookup c.subtlv t with
  | some s => (c, s)
  | none =>
    let s : CapSubtlv := { typ := t, segmentRoutingAlgorithms := none, segmentRoutingCapability := none }
    ({ c with subtlv := aset c.subtlv t s }, s)

/-- Store an updated sub-TLV entry back into a capability entry. -/
def setCapSubtlv (c : Capability) (t : CapSubtlvType) (s : CapSubtlv) : Capability :=
  { c with subtlv := aset c.subtlv t s }

/-- Algorithm-byte loop of processSRAlgorithmCapabilitySubTLV. -/
def srAlgLoop (v : Bytes) (acc : List SRAlgorithm) (errs : List String) :
    List SRAlgorithm × List String :=
  match v with
  | [] => (acc, errs)
  | b :: t =>
    if b = 0 then srAlgLoop t (acc ++ [.SPF]) errs
    else if b = 1 then srAlgLoop t (acc ++ [.STRICT_SPF]) errs
    else srAlgLoop t acc (errs ++ ["invalid Segment Routing algorithm returned in router capability sub-TLV, algorithm: " ++ toString b])

/-- processSRAlgorithmCapabilitySubTLV (sub-TLV 19 of TLV 242): installs a
fresh SegmentRoutingAlgorithms container and fills it. -/
def processSRAlgorithmCapabilitySubTLV (c : Capability) (r : RawTLV) : Capability × List String :=
  match getCapabilitySubTLV c .SR_ALGORITHM with
  | (c1, stlv) =>
    match srAlgLoop r.value [] [] with
    | (algs, errs) =>
      (setCapSubtlv c1 .SR_ALGORITHM { stlv with segmentRoutingAlgorithms := some algs }, errs)

/-- Descriptor loop of processSRCapabilitySubTLV: 3-byte range, then a
SID/Label sub-TLV whose length byte both sizes the value and advances the
scan.  A fatal result (the Except error) aborts the loop before the
SegmentRoutingCapability container is installed; declared lengths other
than 3 or 4 can drive the Value slice past the end of the value (the
GoOut layer records that access). -/
def srcapLoop (v : Bytes) (i : Nat) (srcap : SRCapability) (descrNo : Nat)
    (pErr : List String) (fuel : Nat) : GoOut (Except String (SRCapability × List String)) :=
  match fuel with
  | 0 => .diverge
  | fuel + 1 =>
    if i < v.length then
      if v.length < i + 8 then
        .ok (.error ("invalid length of SR descriptor entry, overflows TLV length"))
      else do
        let sidlLen ← goIndex v (i + 4)
        if sidlLen = 4 ∧ v.length < i + 9 then
          .ok (.error ("invalid length of SR descriptor entry with an index, overflows TLV length"))
        else do
          let endPos := 5 + sidlLen
          let r0 ← goIndex v i
          let r1 ← goIndex v (i + 1)
          let r2 ← goIndex v (i + 2)
          match binaryToUint32 [0, r0, r1, r2] with
          | .error e => .ok (.error e)
          | .ok srgbRange => do
            let sidlType ← goIndex v (i + 3)
            let pErr1 :=
              if sidlType ≠ 1 then
                pErr ++ ["invalid SID/Label sub-TLV type in SRGB descriptor: " ++ toString sidlType]
              else pErr
            let sidlVal ← goSlice v (i + 5) (i + 5 + sidlLen)
            let lblRes : Except String Nat :=
              if sidlLen = 3 then
                binaryToUint32 [0, sidlVal.getD 0 0, sidlVal.getD 1 0, sidlVal.getD 2 0]
              else if sidlLen = 4 then
                binaryToUint32 sidlVal
              else
                .error ("invalid length SRGB start: " ++ toString sidlLen)
            match lblRes with
            | .error e => .ok (.error e)
            | .ok lbl =>
              match keyedAppend srcap.srgbDescriptor descrNo { range := srgbRange, label := lbl } with
              | .error e => .ok (.error e)
              | .ok d =>
                srcapLoop v (i + endPos) { srcap with srgbDescriptor := d } (descrNo + 1) pErr1 fuel
    else .ok (.ok (srcap, pErr))

/-- processSRCapabilitySubTLV (sub-TLV 2 of TLV 242).  The flag byte is
read with no length check, so an empty sub-TLV value panics. -/
def processSRCapabilitySubTLV (c : Capability) (r : RawTLV) : GoOut (Capability × List String) :=
  match getCapabilitySubTLV c .SR_CAPABILITY with
  | (c1, stlv) => do
    let b0 ← goIndex r.value 0
    let f0 : List SRCapabilityFlag := if b0 &&& bit0 ≠ 0 then [.IPV4_MPLS] else []
    let f1 := if b0 &&& bit1 ≠ 0 then f0 ++ [.IPV6_MPLS] else f0
    let srcap0 : SRCapability := { flags := f1, srgbDescriptor := [] }
    let res ← srcapLoop r.value 1 srcap0 0 [] (r.value.length + 1)
    match res with
    | .error fatal => pure (c1, [fatal])
    | .ok (srcap, softs) =>
      pure (setCapSubtlv c1 .SR_CAPABILITY { stlv with segmentRoutingCapability := some srcap }, softs)

/-- Sub-TLV loop of processCapabilityTLV: type 2 and 19 handled, anything
else a diagnostic; the per-sub-TLV error results all land in the
diagnostic list and the loop continues. -/
def capSubTLVLoop (c : Capability) (subTLVs : List RawTLV) (errs : List String) :
    GoOut (Capability × List String) :=
  match subTLVs with
  | [] => .ok (c, errs)
  | s :: rest =>
    match s.typ with
    | 2 => do
      let (c1, e) ← processSRCapabilitySubTLV c s
      capSubTLVLoop c1 rest (errs ++ e)
    | 19 =>
      match processSRAlgorithmCapabilitySubTLV c s with
      | (c1, e) => capSubTLVLoop c1 rest (errs ++ e)
    | t => capSubTLVLoop c rest (errs ++ ["unimplemented router capability sub-TLV, type: " ++ toString t])

/-- Store a finished capability entry (created by NewCapability at key n)
back into the LSP. -/
def writeCapability (i : Lsp) (tlv : Tlv) (n : Nat) (c : Capability) : Lsp :=
  setTLV i .ROUTER_CAPABILITY { tlv with capability := tlv.capability ++ [(n, c)] }

/-- processCapabilityTLV (TLV 242): a new capability entry keyed by the
current list length is created before the 5-byte minimum length check, so
a short TLV leaves the empty entry behind and still returns an error. -/
def processCapabilityTLV (i : Lsp) (r : RawTLV) : GoOut (Lsp × List String) :=
  match getTLV i .ROUTER_CAPABILITY with
  | (i1, tlv, _) =>
    let n := tlv.capability.length
    match alookup tlv.capability n with
    | some _ => .ok (i1, ["duplicate key"])
    | none =>
      let rcap0 := emptyCapability n
      if r.value.length < 5 then
        .ok (writeCapability i1 tlv n rcap0, ["invalid length of Router Capability TLV; " ++ toString r.value.length])
      else
        match ip4BytesToString (r.value.take 4) with
        | .error e => .ok (writeCapability i1 tlv n rcap0, [e])
        | .ok rid =>
          let rcap1 := { rcap0 with routerId := some rid }
          let fb := r.value.getD 4 0
          let f0 : List CapabilityFlag := if fb &&& bit6 ≠ 0 then [.DOWN] else []
          let f1 := if fb &&& bit7 ≠ 0 then f0 ++ [.FLOOD] else f0
          let rcap2 := { rcap1 with flags := f1 }
          match TLVBytesToTLVs (r.value.drop 5) with
          | .error e =>
            .ok (writeCapability i1 tlv n rcap2, ["invalid subTLVs in Capability TLV: " ++ e])
          | .ok subTLVs => do
            let (rcap3, errs) ← capSubTLVLoop rcap2 subTLVs []
            pure (writeCapability i1 tlv n rcap3, errs)

/-! Extended IS Reachability TLV (22). -/

/-- Entry loop of processExtendedISReachabilityTLV: 7-byte system ID,
3-byte metric, 1-byte sub-TLV length, then sub-TLVs; length failures add
a diagnostic and stop the loop. -/
def extISLoop (v : Bytes) (x : Nat) (reach : ExtISReach) (errs : List String) (fuel : Nat) :
    ExtISReach × List String :=
  match fuel with
  | 0 => (reach, errs)
  | fuel + 1 =>
    if x < v.length then
      if v.length < x + 11 then
        (reach, errs ++ ["invalid length IS Reachability TLV, byte offset " ++ toString x ++ ", total TLV length " ++ toString v.length])
      else
        let subTLVLen := v.getD (x + 10) 0
        if v.length < x + 11 + subTLVLen then
          (reach, errs ++ ["invalid length IS Reachability TLV, byte offset " ++ toString x ++ ", subTLV length " ++ toString subTLVLen])
        else
          match TLVBytesToTLVs ((v.take (x + 11 + subTLVLen)).drop (x + 11)) with
          | .error e => (reach, errs ++ ["invalid subTLVs in ExtendedISReachability TLV: " ++ e])
          | .ok subTLVs =>
            let endPos := x + subTLVLen + 11
            match binaryToUint32 [0, v.getD (x + 7) 0, v.getD (x + 8) 0, v.getD (x + 9) 0] with
            | .error e => extISLoop v endPos reach (errs ++ [e]) fuel
            | .ok defmetric =>
              let nid := canonicalHexString ((v.take (x + 7)).drop x)
              let n := (alookup reach.neighbor nid).getD { systemId := nid, Instance := [] }
              let instKey := n.Instance.length
              let inst := (alookup n.Instance instKey).getD { id := instKey, metric := none, subtlv := [] }
              let inst1 := { inst with metric := some defmetric }
              match parseExtendedISReachSubTLVs inst1 subTLVs with
              | (inst2, errs2) =>
                let n1 := { n with Instance := aset n.Instance instKey inst2 }
                extISLoop v endPos { reach with neighbor := aset reach.neighbor nid n1 } (errs ++ errs2) fuel
    else (reach, errs)

/-- processExtendedISReachabilityTLV (TLV 22): the 11-byte minimum is
checked before the container is created. -/
def processExtendedISReachabilityTLV (i : Lsp) (r : RawTLV) : Lsp × List String :=
  if r.value.length < 11 then
    (i, ["invalid Extended IS Reachability TLV (22), length is less than 11 bytes"])
  else
    match getTLVAndInit i .EXTENDED_IS_REACHABILITY extendedISReachabilityContainer with
    | (i1, tlv) =>
      match extISLoop r.value 0 (tlv.extendedIsReachability.getD { neighbor := [] }) [] (r.value.length + 1) with
      | (reach, errs) =>
        (setTLV i1 .EXTENDED_IS_REACHABILITY { tlv with extendedIsReachability := some reach }, errs)

/-! Extended IPv4 Reachability TLV (135). -/

/-- Per-prefix sub-TLV loop of processExtendedIPReachTLV: type 3 is a
prefix SID, anything else a diagnostic. -/
def v4SubTLVLoop (pfxTLV : V4Pfx) (subTLVs : List RawTLV) (pErr : List String) (v4Pfx : String) :
    GoOut (V4Pfx × List String) :=
  match subTLVs with
  | [] => .ok (pfxTLV, pErr)
  | st :: rest =>
    match st.typ with
    | 3 => do
      let seg ← parsePrefixSIDSubTLV st
      match seg with
      | .error e => v4SubTLVLoop pfxTLV rest (pErr ++ [e]) v4Pfx
      | .ok pfxseg =>
        match addPfxSidToSubtlvs pfxTLV.subtlv pfxseg with
        | .error e => v4SubTLVLoop pfxTLV rest (pErr ++ [e]) v4Pfx
        | .ok sub => v4SubTLVLoop { pfxTLV with subtlv := sub } rest pErr v4Pfx
    | t =>
      v4SubTLVLoop pfxTLV rest
        (pErr ++ ["for prefix " ++ v4Pfx ++ " unimplemented sub-TLV parsing for type " ++ toString t ++ " in Extended IP Reachability TLV"]) v4Pfx

/-- Entry loop of processExtendedIPReachTLV.  The early return statements
of the Go code discard the soft diagnostics collected so far and return
only the fatal error; the duplicate-prefix branch executes return err at
a point where err is necessarily nil, so it aborts the TLV silently.  The
(unreachable) ip4BytesToString failure branch continues the loop without
advancing, which never terminates; the fuel models that divergence. -/
def extIPLoop (v : Bytes) (x : Nat) (reach : ExtIPv4Reach) (pErr : List String) (fuel : Nat) :
    GoOut (ExtIPv4Reach × List String) :=
  match fuel with
  | 0 => .diverge
  | fuel + 1 =>
    if x < v.length then
      if v.length < x + 5 then
        .ok (reach, ["invalid Extended IP Reachability TLV, insufficient data - at position " ++ toString x ++ ", total length: " ++ toString v.length])
      else
        match binaryToUint32 ((v.take (x + 4)).drop x) with
        | .error e => .ok (reach, [e])
        | .ok metric =>
          let control := v.getD (x + 4) 0
          let upDown := control &&& bit0 ≠ 0
          let subTLVPresent := control &&& bit1 ≠ 0
          let pfxLen := control &&& 0x3F
          if pfxLen > 32 then
            .ok (reach, ["IPv4 prefix length cannot be greater than 32: " ++ toString pfxLen])
          else
            let ipB := (pfxLen + 7) / 8
            if v.length < x + 5 + ipB then
              .ok (reach, ["insufficient bytes for IPv4 prefix within TLV, length: " ++ toString v.length ++ ", expected: " ++ toString (x + 5 + ipB)])
            else
              let ipBytes := (v.take (x + 5 + ipB)).drop (x + 5) ++ List.replicate (4 - ipB) 0
              match ip4BytesToString ipBytes with
              | .error e => extIPLoop v x reach (pErr ++ [e]) fuel
              | .ok pfxStr =>
                let v4Pfx := pfxStr ++ "/" ++ toString pfxLen
                let s := x + 5 + ipB
                match alookup reach.prefixes v4Pfx with
                | some _ => .ok (reach, [])
                | none =>
                  let pfxTLV0 : V4Pfx :=
                    { pfx := v4Pfx, metric := metric, sBit := subTLVPresent, upDown := upDown, subtlv := [] }
                  if subTLVPresent then
                    if v.length < s + 1 then
                      .ok (reach, ["invalid length Extended IP Reachability TLV, subTLVs present but no length byte exists"])
                    else
                      let subTLVLen := v.getD s 0
                      if v.length < s + 1 + subTLVLen then
                        .ok (reach, ["invalid length Extended IP Reachability TLV, subTLV length " ++ toString (s + subTLVLen) ++ " but byte length " ++ toString v.length])
                      else
                        match TLVBytesToTLVs ((v.take (s + 1 + subTLVLen)).drop (s + 1)) with
                        | .error e => .ok (reach, ["invalid sub-TLVs in ExtendedIPReachability TLV: " ++ e])
                        | .ok subTLVs => do
                          let (pfxTLV1, pErr1) ← v4SubTLVLoop pfxTLV0 subTLVs pErr v4Pfx
                          extIPLoop v (s + 1 + subTLVLen)
                            { reach with prefixes := aset reach.prefixes v4Pfx pfxTLV1 } pErr1 fuel
                  else
                    extIPLoop v s { reach with prefixes := aset reach.prefixes v4Pfx pfxTLV0 } pErr fuel
    else .ok (reach, pErr)

/-- processExtendedIPReachTLV (TLV 135). -/
def processExtendedIPReachTLV (i : Lsp) (r : RawTLV) : GoOut (Lsp × List String) :=
  match getTLVAndInit i .EXTENDED_IPV4_REACHABILITY extendedIPv4ReachabilityContainer with
  | (i1, tlv) => do
    let (reach, errs) ←
      extIPLoop r.value 0 (tlv.extendedIpv4Reachability.getD { prefixes := [] }) [] (r.value.length + 1)
    pure (setTLV i1 .EXTENDED_IPV4_REACHABILITY { tlv with extendedIpv4Reachability := some reach }, errs)

/-! IPv6 Reachability TLV (236). -/

/-- Per-prefix sub-TLV loop of processIPv6ReachabilityTLV (the break of
the Go switch arm only leaves the switch, so failures continue with the
next sub-TLV, as in the IPv4 loop). -/
def v6SubTLVLoop (pfxTLV : V6Pfx) (subTLVs : List RawTLV) (pErr : List String) :
    GoOut (V6Pfx × List String) :=
  match subTLVs with
  | [] => .ok (pfxTLV, pErr)
  | st :: rest =>
    match st.typ with
    | 3 => do
      let seg ← parsePrefixSIDSubTLV st
      match seg with
      | .error e => v6SubTLVLoop pfxTLV rest (pErr ++ [e])
      | .ok pfxseg =>
        match addPfxSidToSubtlvs pfxTLV.subtlv pfxseg with
        | .error e => v6SubTLVLoop pfxTLV rest (pErr ++ [e])
        | .ok sub => v6SubTLVLoop { pfxTLV with subtlv := sub } rest pErr
    | t =>
      v6SubTLVLoop pfxTLV rest
        (pErr ++ ["unimplemented sub-TLV parsing for type " ++ toString t ++ " in IPv6 Reachability TLV"])

/-- Entry loop of processIPv6ReachabilityTLV.  A prefix-length byte above
128 makes the copy loop write past the 16-byte address buffer, a runtime
panic; the duplicate-prefix branch executes return err where err is
necessarily nil, aborting the TLV silently; early fatal returns discard
collected soft diagnostics. -/
def extV6Loop (v : Bytes) (x : Nat) (reach : IPv6Reach) (pErr : List String) (fuel : Nat) :
    GoOut (IPv6Reach × List String) :=
  match fuel with
  | 0 => .diverge
  | fuel + 1 =>
    if x < v.length then
      if v.length < x + 6 then
        .ok (reach, ["invalid IPv6 Reachability TLV, insufficient data: " ++ toString v.length ++ " < " ++ toString (x + 6)])
      else
        match binaryToUint32 ((v.take (x + 4)).drop x) with
        | .error e => .ok (reach, [e])
        | .ok metric =>
          let control := v.getD (x + 4) 0
          let upDown := control &&& bit0 ≠ 0
          let extOrigin := control &&& bit1 ≠ 0
          let subTLVPresent := control &&& bit2 ≠ 0
          let pfxlen := v.getD (x + 5) 0
          let ipL := (pfxlen + 7) / 8
          if v.length < x + 6 + ipL then
            .ok (reach, ["Invalid prefix length, " ++ toString ipL ++ ", overflows length of TLV " ++ toString v.length])
          else if ipL > 16 then
            .panik ("index out of range")
          else
            let ipBytes := (v.take (x + 6 + ipL)).drop (x + 6) ++ List.replicate (16 - ipL) 0
            match ip6BytesToString ipBytes with
            | .error e => .ok (reach, [e])
            | .ok addr =>
              let pfx := addr ++ "/" ++ toString pfxlen
              let s := x + 6 + ipL
              match alookup reach.prefixes pfx with
              | some _ => .ok (reach, [])
              | none =>
                let pfxTLV0 : V6Pfx :=
                  { pfx := pfx, metric := metric, sBit := subTLVPresent, upDown := upDown,
                    xBit := extOrigin, subtlv := [] }
                if subTLVPresent then
                  if v.length < s + 1 then
                    .ok (reach, ["invalid length IPv6 Reachability TLV, subTLVs present but no length byte present"])
                  else
                    let subTLVLen := v.getD s 0
                    if v.length < s + 1 + subTLVLen then
                      .ok (reach, ["invalid length IPv6 Reachability subTLVs, subTLV length " ++ toString (s + subTLVLen) ++ ", but byte length " ++ toString v.length])
                    else
                      match TLVBytesToTLVs ((v.take (s + 1 + subTLVLen)).drop (s + 1)) with
                      | .error e => .ok (reach, ["invalid subTLVs in IPv6 Reachability TLV: " ++ e])
                      | .ok subTLVs => do
                        let (pfxTLV1, pErr1) ← v6SubTLVLoop pfxTLV0 subTLVs pErr
                        match keyedAppend reach.prefixes pfx pfxTLV1 with
                        | .error e => .ok (reach, ["cannot append IPv6 Reachability TLV, " ++ e])
                        | .ok ps => extV6Loop v (s + 1 + subTLVLen) { reach with prefixes := ps } pErr1 fuel
                else
                  match keyedAppend reach.prefixes pfx pfxTLV0 with
                  | .error e => .ok (reach, ["cannot append IPv6 Reachability TLV, " ++ e])
                  | .ok ps => extV6Loop v s { reach with prefixes := ps } pErr fuel
    else
      if x ≠ v.length then
        .ok (reach, ["invalid IPv6 Reachability TLV, does not have correct length: " ++ toString x ++ " != " ++ toString v.length])
      else .ok (reach, pErr)

/-- processIPv6ReachabilityTLV (TLV 236). -/
def processIPv6ReachabilityTLV (i : Lsp) (r : RawTLV) : GoOut (Lsp × List String) :=
  match getTLVAndInit i .IPV6_REACHABILITY ipv6ReachabilityContainer with
  | (i1, tlv) => do
    let (reach, errs) ←
      extV6Loop r.value 0 (tlv.ipv6Reachability.getD { prefixes := [] }) [] (r.value.length + 1)
    pure (setTLV i1 .IPV6_REACHABILITY { tlv with ipv6Reachability := some reach }, errs)

/-! Dispatch and the decoder entry point (lsdb.go). -/

/-- processTLVMap dispatch: one processor per supported TLV type, unknown
types skipped without diagnostic. -/
def processTLV (i : Lsp) (r : RawTLV) : GoOut (Lsp × List String) :=
  match r.typ with
  | 1 => processAreaAddressTLV i r
  | 22 => .ok (processExtendedISReachabilityTLV i r)
  | 129 => .ok (processNLPIDTLV i r)
  | 132 => .ok (processIPInterfaceAddressTLV i r)
  | 134 => .ok (processTERouterIDTLV i r)
  | 135 => processExtendedIPReachTLV i r
  | 137 => .ok (processDynamicNameTLV i r)
  | 232 => .ok (processIPv6InterfaceAddressTLV i r)
  | 236 => processIPv6ReachabilityTLV i r
  | 242 => processCapabilityTLV i r
  | _ => .ok (i, [])

/-- processTLVs: run the dispatcher over the extracted raw TLVs in order,
aggregating per-TLV error lists. -/
def processTLVs (i : Lsp) (errs : List String) : List RawTLV → GoOut (Lsp × List String)
  | [] => .ok (i, errs)
  | r :: rest => do
    let (i1, e) ← processTLV i r
    processTLVs i1 (errs ++ e) rest

/-- ISISBytesToLSP: the decode entry point.  The first argument is the
iteration order of the LSP-flag bitmap (Go map iteration; any permutation
of lspFlagBitmap is a possible execution).  Mirrors lsdb.go: discard
offset bytes, require 16 bytes, read the sequence number, checksum and
flags, split the TLV bytes (a failure here is fatal), then process each
TLV, returning the LSP, the parsed flag, and the aggregated error list
(empty for a nil error). -/
def ISISBytesToLSP (flagOrder : List (Nat × LspFlag)) (lspBytes : Bytes) (offset : Nat) :
    GoOut (Option Lsp × Bool × List String) :=
  if offset > lspBytes.length then .panik ("slice bounds out of range")
  else
    let b := lspBytes.drop offset
    if b.length < 16 then
      .ok (none, false, ["invalid LSP data provided, need at least 16 bytes, got " ++ toString b.length ++ " bytes"])
    else
      match binaryToUint32 ((b.take 12).drop 8) with
      | .error e => .ok (none, false, [e])
      | .ok seq =>
        match binaryToUint32 [0, 0, b.getD 12 0, b.getD 13 0] with
        | .error e => .ok (none, false, [e])
        | .ok checksum =>
          match TLVBytesToTLVs (b.drop 15) with
          | .error e => .ok (none, false, ["invalid TLVs in LSP: " ++ e])
          | .ok tlvs => do
            let i0 : Lsp :=
              { lspId := some (canonicalHexString (b.take 7) ++ "-" ++ canonicalHexString [b.getD 7 0]),
                sequenceNumber := seq,
                checksum := checksum % 65536,
                flags := parseLSPFlagsWith flagOrder (b.getD 14 0),
                tlv := [] }
            let (i1, errs) ← processTLVs i0 [] tlvs
            pure (some i1, true, errs)

/-! The notification renderer (RenderNotifications in lsdb.go).  The
flattening itself is performed by the external ygot library; its contract
is modelled from the spec where noted. -/

/-- One structured gNMI path element: a name and a key map. -/
structure PathElem where
  name : String
  keys : List (String × String)
deriving DecidableEq, Repr

/-- One gNMI notification, restricted to what RenderNotifications
manipulates: the timestamp, the prefix in its string-slice or structured
form, and the atomic marker.  The per-leaf update list is produced
entirely inside ygot and no claim quantifies over it, so it is not
modelled. -/
structure Notification where
  timestamp : Int
  prefixElement : List String
  prefixElem : List PathElem
  atomic : Bool
deriving DecidableEq, Repr

/-- ygot.GNMINotificationsConfig, as populated by RenderNotifications. -/
structure GNMINotificationsConfig where
  usePathElem : Bool
  stringSlicePrefixList : List String
  pathElemPrefixList : List PathElem
deriving DecidableEq, Repr

/-- ISISRenderArgs: the rendering context.  The timestamp is already in
nanoseconds (time.Time.UnixNano). -/
structure ISISRenderArgs where
  networkInstance : String
  protocolInstance : String
  level : Int
  timestamp : Int
  usePathElem : Bool
deriving DecidableEq, Repr

/-- Modelled from the spec: ygot.TogNMINotifications (openconfig/ygot,
outside this repository) flattens the LSP into per-leaf updates and, per
spec section 4.3, produces a list with exactly one notification holding
those updates, carrying the supplied timestamp and the configured prefix;
the notification is not yet marked atomic. -/
def togNMINotifications (_lsp : Lsp) (ts : Int) (cfg : GNMINotificationsConfig) :
    Except String (List Notification) :=
  .ok [{ timestamp := ts, prefixElement := cfg.stringSlicePrefixList,
         prefixElem := cfg.pathElemPrefixList, atomic := false }]

/-- Modelled from the spec: ygot.StringToStructuredPath (outside this
repository) applied to the Sprintf-built prefix string of
RenderNotifications, yielding its path elements with their keys. -/
def structuredLspPath (ni pi : String) (level : Int) (id : String) : List PathElem :=
  [{ name := "network-instances", keys := [] },
   { name := "network-instance", keys := [("name", ni)] },
   { name := "protocols", keys := [] },
   { name := "protocol", keys := [("identifier", "ISIS"), ("name", pi)] },
   { name := "isis", keys := [] },
   { name := "levels", keys := [] },
   { name := "level", keys := [("level-number", toString level)] },
   { name := "link-state-database", keys := [] },
   { name := "lsp", keys := [("lsp-id", id)] }]

/-- RenderNotifications: reject a nil LSP or nil LSP ID, build the prefix
in the requested form, flatten through ygot, and mark every returned
notification atomic. -/
def RenderNotifications (lsp : Option Lsp) (args : ISISRenderArgs) :
    Except String (List Notification) :=
  match lsp with
  | none => .error ("cannot handle nil LSP")
  | some l =>
    match l.lspId with
    | none => .error ("cannot handle nil LSP ID")
    | some id =>
      let rArgs : GNMINotificationsConfig :=
        { usePathElem := args.usePathElem,
          stringSlicePrefixList :=
            ["network-instances", "network-instance", args.networkInstance,
             "protocols", "protocol", "ISIS", args.protocolInstance,
             "isis", "levels", "level", toString args.level,
             "link-state-database", "lsp", id],
          pathElemPrefixList := [] }
      let rArgs :=
        if args.usePathElem then
          { rArgs with
            pathElemPrefixList := structuredLspPath args.networkInstance args.protocolInstance args.level id,
            stringSlicePrefixList := [] }
        else rArgs
      match togNMINotifications l args.timestamp rArgs with
      | .error e => .error e
      | .ok notifications => .ok (notifications.map (fun n => { n with atomic := true }))

/-! Observation helpers used by the claim statements. -/

/-- The parsed flag of a decode outcome (false for panic or divergence). -/
def parsedOf (o : GoOut (Option Lsp × Bool × List String)) : Bool :=
  match o with
  | .ok (_, parsed, _) => parsed
  | _ => false

/-- The area-address list of a decode outcome. -/
def areaAddrsOf (o : GoOut (Option Lsp × Bool × List String)) : List String :=
  match o with
  | .ok (some l, _, _) =>
    match alookup l.tlv .AREA_ADDRESSES with
    | some tlv => tlv.areaAddress.getD []
    | none => []
  | _ => []

/-- The capability list of the ROUTER_CAPABILITY TLV of an LSP (empty
when the TLV is absent). -/
def capsOf (i : Lsp) : List (Nat × Capability) :=
  match alookup i.tlv .ROUTER_CAPABILITY with
  | some t => t.capability
  | none => []

/-- Whether an Except result is a returned error. -/
def isErr {α : Type} (e : Except String α) : Bool :=
  match e with
  | .error _ => true
  | .ok _ => false

/-- The notification prefix ends with the lsp element keyed by the LSP
ID: the last two string-slice elements are lsp and the ID in string-slice
form, the last structured element is lsp with key lsp-id=ID. -/
def endsWithLspElem (n : Notification) (usePathElem : Bool) (id : String) : Prop :=
  if usePathElem then
    ∃ pre, n.prefixElem = pre ++ [{ name := "lsp", keys := [("lsp-id", id)] }]
  else
    ∃ pre, n.prefixElement = pre ++ ["lsp", id]

/-- The error list of a processor outcome. -/
def procErrsOf (o : GoOut (Lsp × List String)) : List String :=
  match o with
  | .ok (_, e) => e
  | _ => []

/-- The bit mask of one LSP flag per the source bitmap. -/
def lspFlagMask (f : LspFlag) : Nat :=
  match f with
  | .PARTITION_REPAIR => bit0
  | .ATTACHED_ERROR => bit1
  | .ATTACHED_EXPENSE => bit2
  | .ATTACHED_DELAY => bit3
  | .ATTACHED_DEFAULT => bit4
  | .OVERLOAD => bit5

/-! Concrete inputs used by the claims.  hdr15 is the 15-byte LSP header
of the spec scenarios (LSP-ID 0000.4000.ce39.00-00, sequence 5158,
checksum 10111, flags byte 0x03); the TLV section starts at offset 15. -/

def hdr15 : Bytes :=
  [0x00, 0x00, 0x40, 0x00, 0xCE, 0x39, 0x00, 0x00, 0x00, 0x00, 0x14, 0x26, 0x27, 0x7F, 0x03]

/-- Spec scenario 1: the 16-byte input whose TLV section is the lone byte
0x01. -/
def c3bytes : Bytes := hdr15 ++ [0x01]

/-- Header plus the Area Addresses TLV 01 08 07 39 75 2F 01 00 00 14. -/
def c9bytes : Bytes := hdr15 ++ [0x01, 0x08, 0x07, 0x39, 0x75, 0x2F, 0x01, 0x00, 0x00, 0x14]

/-- Header plus an Area Addresses TLV whose single address has declared
length zero: processAreaAddressTLV then reads Value[1] of the one-byte
value, an out-of-range index. -/
def c1bytes : Bytes := hdr15 ++ [0x01, 0x01, 0x00]

/-- Header plus a Router Capability TLV carrying an empty SR-capability
sub-TLV: processSRCapabilitySubTLV reads Value[0] of the empty value, an
out-of-range index. -/
def c1capBytes : Bytes := hdr15 ++ [0xF2, 0x07, 0x0A, 0xF4, 0xA8, 0x1F, 0x00, 0x02, 0x00]

/-- A Prefix-SID sub-TLV with a 4-byte value and the VALUE flag clear:
the index branch of parsePrefixSIDSubTLV slices Value[2:6] of the 4-byte
value, reaching two bytes past its end. -/
def pfxSidShortTLV : RawTLV := { typ := 3, length := 4, value := [0x00, 0x00, 0xAB, 0xCD] }

/-- The empty LSP, as built by newISISLSP. -/
def emptyLsp : Lsp :=
  { lspId := none, sequenceNumber := 0, checksum := 0, flags := [], tlv := [] }

/-- An Extended IPv4 Reachability TLV carrying the same prefix
1.2.3.4/32 twice, first with metric 10, then with metric 20. -/
def c4TLV : RawTLV :=
  { typ := 135, length := 18,
    value := [0, 0, 0, 10, 0x20, 1, 2, 3, 4, 0, 0, 0, 20, 0x20, 1, 2, 3, 4] }

/-- The LSP state processExtendedIPReachTLV produces from emptyLsp and
c4TLV: only the first 1.2.3.4/32 entry, metric 10. -/
def c4ResultLsp : Lsp :=
  { emptyLsp with
    tlv := [(TlvType.EXTENDED_IPV4_REACHABILITY,
      { newTlvRec TlvType.EXTENDED_IPV4_REACHABILITY with
        extendedIpv4Reachability := some
          { prefixes := [("1.2.3.4/32",
              { pfx := "1.2.3.4/32", metric := 10, sBit := false, upDown := false, subtlv := [] })] } })] }

/-- The LSP decoded from c9bytes. -/
def c9ResultLsp : Lsp :=
  { lspId := some "0000.4000.ce39.00-00", sequenceNumber := 5158, checksum := 10111,
    flags := [],
    tlv := [(TlvType.AREA_ADDRESSES,
      { newTlvRec TlvType.AREA_ADDRESSES with areaAddress := some ["39.752f.0100.0014"] })] }

/-- A Router Capability TLV with a 2-byte value, shorter than the 5-byte
minimum. -/
def c10TLV : RawTLV := { typ := 242, length := 2, value := [1, 2] }

/-! Helper lemmas. -/

theorem goOutBind_ok {α β : Type} (a : α) (f : α → GoOut β) :
    (GoOut.ok a >>= f) = f a := rfl

theorem alookup_aset_self {K V : Type} [DecidableEq K] (m : List (K × V)) (k : K) (v : V) :
    alookup (aset m k v) k = some v := by
  induction m with
  | nil => simp [aset, alookup]
  | cons hd tl ih =>
    obtain ⟨k0, v0⟩ := hd
    by_cases h : k = k0
    · simp [aset, alookup, h]
    · simp [aset, alookup, h, ih]

/-- Full characterisation of the TLV splitting loop, for any fuel larger
than the input length: a success concatenates back to the input with
every value the declared length long, and a failure happens exactly on a
truncated record. -/
theorem tlvSplit_spec (fuel : Nat) : ∀ (b : Bytes), b.length < fuel →
    (∀ tlvs, tlvSplit fuel b = .ok tlvs →
        ((tlvs.map encodeTLV).flatten = b ∧ ∀ t ∈ tlvs, t.value.length = t.length)) ∧
    ((∃ e, tlvSplit fuel b = .error e) ↔ TruncatedTLVs b) := by
  induction fuel with
  | zero => intro b hb; exact absurd hb (by omega)
  | succ fuel ih =>
    intro b hb
    match b with
    | [] =>
      refine ⟨fun tlvs h => ?_, ?_, ?_⟩
      · simp [tlvSplit] at h
        subst h
        simp
      · rintro ⟨e, h⟩
        simp [tlvSplit] at h
      · intro ht
        cases ht
    | [t] =>
      refine ⟨fun tlvs h => ?_, fun _ => TruncatedTLVs.noLength t, fun _ => ⟨_, rfl⟩⟩
      simp [tlvSplit] at h
    | t :: l :: rest =>
      by_cases hl : l > rest.length
      · refine ⟨fun tlvs h => ?_, fun _ => TruncatedTLVs.overflow t l rest hl,
          fun _ => ⟨"invalid length of TLVs, overflowed buffer", by simp [tlvSplit, hl]⟩⟩
        simp [tlvSplit, hl] at h
      · have hlen : (rest.drop l).length < fuel := by
          simp only [List.length_drop]
          simp at hb
          omega
        have hrec := ih (rest.drop l) hlen
        cases hres : tlvSplit fuel (rest.drop l) with
        | error e =>
          have heq : tlvSplit (fuel + 1) (t :: l :: rest) = .error e := by
            simp [tlvSplit, hl, hres]
          refine ⟨fun tlvs h => ?_, fun _ => ?_, fun _ => ⟨e, heq⟩⟩
          · rw [heq] at h; simp at h
          · exact TruncatedTLVs.tail t l rest (by omega) (hrec.2.mp ⟨e, hres⟩)
        | ok tlvs' =>
          have heq : tlvSplit (fuel + 1) (t :: l :: rest) =
              .ok ({ typ := t, length := l, value := rest.take l } :: tlvs') := by
            simp [tlvSplit, hl, hres]
          have hok := hrec.1 tlvs' hres
          refine ⟨fun tlvs h => ?_, ?_, ?_⟩
          · rw [heq] at h
            cases h
            constructor
            · simp only [List.map, List.flatten, encodeTLV]
              rw [hok.1]
              simp [List.take_append_drop]
            · intro x hx
              rcases List.mem_cons.mp hx with hx | hx
              · subst hx
                simp [List.length_take]
                omega
              · exact hok.2 x hx
          · rintro ⟨e, h⟩
            rw [heq] at h
            simp at h
          · intro ht
            cases ht with
            | overflow _ _ _ h' => omega
            | tail _ _ _ hle htr =>
              obtain ⟨e, he⟩ := hrec.2.mpr htr
              rw [he] at hres
              simp at hres

/-- Flag counting for parseLSPFlagsWith over an arbitrary table. -/
theorem count_parseLSPFlagsWith (attrs : Nat) (l : List (Nat × LspFlag)) (f : LspFlag) :
    (parseLSPFlagsWith l attrs).count f =
      l.countP (fun p => decide (attrs &&& p.1 ≠ 0) && decide (p.2 = f)) := by
  induction l with
  | nil => rfl
  | cons hd tl ih =>
    by_cases hc : attrs &&& hd.1 = 0
    · simp [parseLSPFlagsWith, List.filterMap_cons, hc, List.countP_cons] at ih ⊢
      exact ih
    · by_cases hf : hd.2 = f <;>
        simp [parseLSPFlagsWith, List.filterMap_cons, hc, hf, List.count_cons, List.countP_cons] at ih ⊢ <;>
        simp [ih]

/-- An area-address record whose declared length runs past the TLV value
aborts the loop with one error and the addresses collected so far. -/
theorem areaAddrLoop_overflow (v : Bytes) (x : Nat) (acc : List String) (fuel : Nat)
    (hx : x < v.length) (hov : v.length < x + 1 + v.getD x 0) :
    ∃ e, areaAddrLoop v x acc (fuel + 1) = .ok (acc, [e]) := by
  have hgd : v.getD x 0 = v.get ⟨x, hx⟩ := by
    simp [List.getD, List.getElem?_eq_getElem hx]
  refine ⟨"invalid length of address, " ++ toString (v.get ⟨x, hx⟩) ++
    ", overflows TLV length " ++ toString v.length, ?_⟩
  simp only [areaAddrLoop]
  rw [if_pos hx]
  simp only [goIndex, dif_pos hx, goOutBind_ok]
  rw [if_pos (by omega)]
  rfl

/-! Claim theorems. -/

/-- C1: the claim states that no index or slice access in the decoder
reads past the end of its input and that a decode can never panic.  The
code refutes this: a zero-length area address makes processAreaAddressTLV
read Value[x+1] at the end of the value (an out-of-range index, a Go
runtime panic), an empty SR-capability sub-TLV makes
processSRCapabilitySubTLV read Value[0] of an empty slice (likewise a
panic), and the index branch of parsePrefixSIDSubTLV slices Value[2:6] of
a 4-byte value, reaching two bytes past the end of its input after
checking only that 4 bytes are present. -/
theorem isis_decoder_panics_on_crafted_tlvs :
    ISISBytesToLSP lspFlagBitmap c1bytes 0 = .panik ("index out of range") ∧
    ISISBytesToLSP lspFlagBitmap c1capBytes 0 = .panik ("index out of range") ∧
    parsePrefixSIDSubTLV pfxSidShortTLV = .panik ("slice bounds out of range") :=
  ⟨rfl, rfl, rfl⟩

/-- C2: on success TLVBytesToTLVs returns records whose type byte, length
byte and value bytes concatenate, in order, to exactly the input, with
every value as long as its length byte; and it fails exactly when some
record is truncated: a type byte with no following length byte, or a
declared length running past the end of the input. -/
theorem TLVBytesToTLVs_roundtrip_and_truncation (b : Bytes) :
    (∀ tlvs, TLVBytesToTLVs b = .ok tlvs →
        ((tlvs.map encodeTLV).flatten = b ∧ ∀ t ∈ tlvs, t.value.length = t.length)) ∧
    ((∃ e, TLVBytesToTLVs b = .error e) ↔ TruncatedTLVs b) :=
  tlvSplit_spec (b.length + 1) b (by omega)

theorem TLVBytesToTLVs_roundtrip_and_truncation_witness :
    (([({ typ := 1, length := 1, value := [7] } : RawTLV)].map encodeTLV).flatten = [1, 1, 7] ∧
      ∀ t ∈ [({ typ := 1, length := 1, value := [7] } : RawTLV)], t.value.length = t.length) ∧
    TruncatedTLVs [5] :=
  ⟨(TLVBytesToTLVs_roundtrip_and_truncation [1, 1, 7]).1 _ (by rfl),
   (TLVBytesToTLVs_roundtrip_and_truncation [5]).2.mp ⟨_, rfl⟩⟩

/-- C3 counterexample: the claim states that decoding the 16-byte input
00 00 40 00 CE 39 00 00 00 00 14 26 27 7F 03 01 returns parsed=true; the
code returns parsed=false, because its TLV section is the single byte 01,
a type byte with no length byte, which TLVBytesToTLVs rejects and
ISISBytesToLSP treats as fatal. -/
theorem minimal_lsp_parsed_false_counterexample :
    parsedOf (ISISBytesToLSP lspFlagBitmap c3bytes 0) = false := rfl

/-- C3 amended: decoding that 16-byte input returns parsed=false, a nil
LSP and a fatal invalid-TLVs error; the header fields up to that point do
decode to sequence number 5158, checksum 10111 and LSP-ID
0000.4000.ce39.00-00, but no LSP carrying them is returned. -/
theorem minimal_lsp_fatal_truncation :
    ISISBytesToLSP lspFlagBitmap c3bytes 0 =
      .ok (none, false, ["invalid TLVs in LSP: invalid length of TLVs, got a TLV with type and no length"]) ∧
    binaryToUint32 ((c3bytes.take 12).drop 8) = .ok 5158 ∧
    binaryToUint32 [0, 0, c3bytes.getD 12 0, c3bytes.getD 13 0] = .ok 10111 ∧
    canonicalHexString (c3bytes.take 7) ++ "-" ++ canonicalHexString [c3bytes.getD 7 0] =
      "0000.4000.ce39.00-00" :=
  ⟨rfl, rfl, rfl, rfl⟩

/-- C4: the claim states that a repeated prefix key is rejected with a
fatal-per-TLV error and a recorded diagnostic.  The code does stop the
TLV at the duplicate and keeps the first entry (metric 10, not the
duplicate metric 20), but the branch executes return err at a point
where err is necessarily nil, so processExtendedIPReachTLV returns an
empty error list: no diagnostic is recorded. -/
theorem extIPReach_duplicate_prefix_silent :
    processExtendedIPReachTLV emptyLsp c4TLV = .ok (c4ResultLsp, []) := rfl

/-- C5: an adjacency-SID value is decoded as a 3-byte big-endian MPLS
label exactly when both the VALUE and LOCAL flags are set and as a 4-byte
big-endian index exactly when both are clear; any other flag combination
or a byte count different from the deduced width is an error (for the
sub-TLVs: total length 5 for a label and 6 for an index, 11 and 12 for
the LAN variant with its 6-byte neighbor ID), and an erroring
adjacency-SID or LAN-adjacency-SID sub-TLV adds no entry to the neighbor
instance. -/
theorem adjacency_sid_width_and_rejection :
    (∀ (valbytes : Bytes) (isValue isLocal : Bool),
       ((isErr (adjSIDValue valbytes isValue isLocal) = false) ↔
          ((isValue = true ∧ isLocal = true ∧ valbytes.length = 3) ∨
           (isValue = false ∧ isLocal = false ∧ valbytes.length = 4))) ∧
       (valbytes.length = 3 → adjSIDValue valbytes true true =
          .ok (valbytes.getD 0 0 * 65536 + valbytes.getD 1 0 * 256 + valbytes.getD 2 0)) ∧
       (valbytes.length = 4 → adjSIDValue valbytes false false =
          .ok (valbytes.getD 0 0 * 16777216 + valbytes.getD 1 0 * 65536 +
               valbytes.getD 2 0 * 256 + valbytes.getD 3 0))) ∧
    (∀ (r : RawTLV),
       (isErr (parseAdjSIDSubTLV r) = false) ↔
         (((r.value.getD 0 0 &&& bit2 ≠ 0) ∧ (r.value.getD 0 0 &&& bit3 ≠ 0) ∧ r.value.length = 5) ∨
          ((r.value.getD 0 0 &&& bit2 = 0) ∧ (r.value.getD 0 0 &&& bit3 = 0) ∧ r.value.length = 6))) ∧
    (∀ (r : RawTLV),
       (isErr (parseLANAdjSIDSubTLV r) = false) ↔
         (((r.value.getD 0 0 &&& bit2 ≠ 0) ∧ (r.value.getD 0 0 &&& bit3 ≠ 0) ∧ r.value.length = 11) ∨
          ((r.value.getD 0 0 &&& bit2 = 0) ∧ (r.value.getD 0 0 &&& bit3 = 0) ∧ r.value.length = 12))) ∧
    (∀ (n : NeighborInstance) (s : RawTLV), s.typ = 31 → isErr (parseAdjSIDSubTLV s) = true →
        ∃ e, parseExtISSubStep n s = (n, [e])) ∧
    (∀ (n : NeighborInstance) (s : RawTLV), s.typ = 32 → isErr (parseLANAdjSIDSubTLV s) = true →
        ∃ e, parseExtISSubStep n s = (n, [e])) := by
  have hval : ∀ (valbytes : Bytes) (isValue isLocal : Bool),
      ((isErr (adjSIDValue valbytes isValue isLocal) = false) ↔
        ((isValue = true ∧ isLocal = true ∧ valbytes.length = 3) ∨
         (isValue = false ∧ isLocal = false ∧ valbytes.length = 4))) := by
    intro valbytes isValue isLocal
    cases isValue <;> cases isLocal
    · by_cases h : valbytes.length = 4 <;>
        simp [adjSIDValue, h, binaryToUint32, isErr, List.length_take]
    · simp [adjSIDValue, isErr]
    · simp [adjSIDValue, isErr]
    · by_cases h : valbytes.length = 3 <;>
        simp [adjSIDValue, h, binaryToUint32, isErr]
  refine ⟨fun valbytes isValue isLocal => ⟨hval valbytes isValue isLocal, ?_, ?_⟩, ?_, ?_, ?_, ?_⟩
  · intro h3
    simp [adjSIDValue, h3, binaryToUint32, List.getD]
  · intro h4
    simp [adjSIDValue, h4, binaryToUint32]
  · intro r
    by_cases h5 : r.value.length < 5
    · simp [parseAdjSIDSubTLV, h5, isErr]
      omega
    · by_cases hb2 : r.value.getD 0 0 &&& bit2 = 0 <;>
        by_cases hb3 : r.value.getD 0 0 &&& bit3 = 0 <;>
        simp only [List.getD, List.get?_eq_getElem?] at hb2 hb3 <;>
        simp [parseAdjSIDSubTLV, h5, adjSIDFlags, hb2, hb3, binaryToUint32, adjSIDValue, isErr,
          List.getD, List.length_drop, List.length_take] <;>
        (try split_ifs) <;> simp_all <;> omega
  · intro r
    by_cases h8 : r.value.length < 8
    · simp [parseLANAdjSIDSubTLV, h8, isErr]
      omega
    · by_cases hb2 : r.value.getD 0 0 &&& bit2 = 0 <;>
        by_cases hb3 : r.value.getD 0 0 &&& bit3 = 0 <;>
        simp only [List.getD, List.get?_eq_getElem?] at hb2 hb3 <;>
        simp [parseLANAdjSIDSubTLV, h8, lanAdjSIDFlags, hb2, hb3, binaryToUint32, adjSIDValue, isErr,
          List.getD, List.length_drop, List.length_take] <;>
        (try split_ifs) <;> simp_all <;> omega
  · intro n s htyp herr
    cases hp : parseAdjSIDSubTLV s with
    | error e => exact ⟨e, by simp [parseExtISSubStep, htyp, hp]⟩
    | ok v => rw [hp] at herr; simp [isErr] at herr
  · intro n s htyp herr
    cases hp : parseLANAdjSIDSubTLV s with
    | error e => exact ⟨e, by simp [parseExtISSubStep, htyp, hp]⟩
    | ok v => rw [hp] at herr; simp [isErr] at herr

theorem adjacency_sid_width_and_rejection_witness :
    adjSIDValue [1, 2, 3] true true =
      .ok (([1, 2, 3] : Bytes).getD 0 0 * 65536 + ([1, 2, 3] : Bytes).getD 1 0 * 256 +
        ([1, 2, 3] : Bytes).getD 2 0) ∧
    ∃ e, parseExtISSubStep { id := 0, metric := none, subtlv := [] }
        { typ := 31, length := 4, value := [0, 0, 0, 0] } =
      ({ id := 0, metric := none, subtlv := [] }, [e]) :=
  ⟨(adjacency_sid_width_and_rejection.1 [1, 2, 3] true true).2.1 rfl,
   adjacency_sid_width_and_rejection.2.2.2.1 _ _ rfl (by rfl)⟩

/-- C6: for every input and in-range offset whose remaining length is
below 16 bytes, ISISBytesToLSP returns a nil LSP, parsed=false, and the
fatal too-short error. -/
theorem ISISBytesToLSP_short_input (order : List (Nat × LspFlag)) (bytes : Bytes) (offset : Nat)
    (h1 : offset ≤ bytes.length) (h2 : bytes.length - offset < 16) :
    ISISBytesToLSP order bytes offset =
      .ok (none, false, ["invalid LSP data provided, need at least 16 bytes, got " ++
        toString (bytes.length - offset) ++ " bytes"]) := by
  simp only [ISISBytesToLSP]
  rw [if_neg (by omega)]
  simp only [List.length_drop]
  rw [if_pos (by omega)]

theorem ISISBytesToLSP_short_input_witness :
    ISISBytesToLSP lspFlagBitmap [1, 2] 0 =
      .ok (none, false, ["invalid LSP data provided, need at least 16 bytes, got " ++
        toString (([1, 2] : Bytes).length - 0) ++ " bytes"]) :=
  ISISBytesToLSP_short_input lspFlagBitmap [1, 2] 0 (by simp) (by simp)

/-- C7 counterexample: the claim states that the decoded flag list is
ordered PARTITION_REPAIR first and that two decodes of the same byte give
identical lists; but parseLSPFlags ranges over a Go map, whose iteration
order is unspecified, and two legitimate iteration orders of the same
bitmap decode byte 0xC0 to differently ordered lists. -/
theorem parseLSPFlags_order_counterexample :
    List.Perm lspFlagBitmap.reverse lspFlagBitmap ∧
    parseLSPFlagsWith lspFlagBitmap.reverse 0xC0 ≠ parseLSPFlagsWith lspFlagBitmap 0xC0 ∧
    parseLSPFlagsWith lspFlagBitmap 0xC0 = [.PARTITION_REPAIR, .ATTACHED_ERROR] ∧
    parseLSPFlagsWith lspFlagBitmap.reverse 0xC0 = [.ATTACHED_ERROR, .PARTITION_REPAIR] :=
  ⟨by decide, by decide, rfl, rfl⟩

set_option maxHeartbeats 1600000 in
/-- C7 amended: under every iteration order of the flag bitmap, the
decoded list contains each set flag exactly once and unset flags never;
all orders decode the same flag multiset, and the textual (source) order
of the bitmap lists the flags in the bit order they are read; only the
ORDER of the list is not determined, because the table is a Go map. -/
theorem lsp_flags_set_semantics :
    ∀ (order : List (Nat × LspFlag)), order.Perm lspFlagBitmap →
      (∀ (attrs : Nat) (f : LspFlag),
        (parseLSPFlagsWith order attrs).count f = if attrs &&& lspFlagMask f ≠ 0 then 1 else 0) ∧
      (∀ attrs : Nat, (parseLSPFlagsWith order attrs).Perm (parseLSPFlags attrs)) ∧
      (∀ attrs : Nat, parseLSPFlags attrs =
        (lspFlagBitmap.map Prod.snd).filter (fun f => decide (attrs &&& lspFlagMask f ≠ 0))) := by
  intro order hperm
  have hfilterPerm : ∀ attrs : Nat, (parseLSPFlagsWith order attrs).Perm (parseLSPFlags attrs) :=
    fun attrs => hperm.filterMap _
  refine ⟨?_, hfilterPerm, ?_⟩
  · intro attrs f
    rw [(hfilterPerm attrs).count_eq]
    rw [show parseLSPFlags attrs = parseLSPFlagsWith lspFlagBitmap attrs from rfl]
    rw [count_parseLSPFlagsWith]
    cases f <;>
      simp [lspFlagBitmap, lspFlagMask, List.countP_cons, List.countP_nil]
  · intro attrs
    simp only [parseLSPFlags, parseLSPFlagsWith, lspFlagMask, lspFlagBitmap, List.filterMap_cons,
      List.filterMap_nil, List.filter_cons, List.filter_nil, List.map_cons, List.map_nil,
      decide_eq_true_eq, ne_eq]
    split_ifs <;> rfl

theorem lsp_flags_set_semantics_witness :
    ((parseLSPFlagsWith lspFlagBitmap.reverse 0xC0).count LspFlag.PARTITION_REPAIR =
      if 0xC0 &&& lspFlagMask LspFlag.PARTITION_REPAIR ≠ 0 then 1 else 0) ∧
    (parseLSPFlagsWith lspFlagBitmap.reverse 0xC0).Perm (parseLSPFlags 0xC0) :=
  ⟨(lsp_flags_set_semantics lspFlagBitmap.reverse (by decide)).1 0xC0 LspFlag.PARTITION_REPAIR,
   (lsp_flags_set_semantics lspFlagBitmap.reverse (by decide)).2.1 0xC0⟩

/-- C8: RenderNotifications fails exactly when the LSP or its LSP ID is
absent; for every present LSP and ID it returns exactly one notification,
marked atomic, whose prefix ends with the lsp element keyed by the LSP
ID (the flattening by the external ygot library is modelled from the
spec as producing one notification). -/
theorem render_notifications_contract :
    ∀ (lsp : Option Lsp) (args : ISISRenderArgs),
      ((∃ e, RenderNotifications lsp args = .error e) ↔
        (lsp = none ∨ ∃ l, lsp = some l ∧ l.lspId = none)) ∧
      (∀ (l : Lsp) (id : String), lsp = some l → l.lspId = some id →
        ∃ n, RenderNotifications lsp args = .ok [n] ∧ n.atomic = true ∧
          endsWithLspElem n args.usePathElem id) := by
  intro lsp args
  cases lsp with
  | none =>
    refine ⟨⟨fun _ => .inl rfl, fun _ => ⟨"cannot handle nil LSP", rfl⟩⟩, ?_⟩
    intro l id h
    cases h
  | some l =>
    cases hid : l.lspId with
    | none =>
      refine ⟨⟨fun _ => .inr ⟨l, rfl, hid⟩,
        fun _ => ⟨"cannot handle nil LSP ID", by simp [RenderNotifications, hid]⟩⟩, ?_⟩
      intro l' id h hId
      cases h
      rw [hid] at hId
      cases hId
    | some id0 =>
      constructor
      · constructor
        · rintro ⟨e, he⟩
          cases hu : args.usePathElem <;>
            simp [RenderNotifications, hid, togNMINotifications, hu] at he
        · rintro (h | ⟨l', hl', hnone⟩)
          · cases h
          · cases hl'
            rw [hid] at hnone
            cases hnone
      · intro l' id h hId
        cases h
        rw [hid] at hId
        cases hId
        cases hu : args.usePathElem with
        | false =>
          refine ⟨{ timestamp := args.timestamp,
                    prefixElement := ["network-instances", "network-instance", args.networkInstance,
                      "protocols", "protocol", "ISIS", args.protocolInstance,
                      "isis", "levels", "level", toString args.level, "link-state-database", "lsp", id0],
                    prefixElem := [], atomic := true }, ?_, rfl, ?_⟩
          · simp [RenderNotifications, hid, togNMINotifications, hu]
          · simp only [endsWithLspElem, hu]
            exact ⟨["network-instances", "network-instance", args.networkInstance,
              "protocols", "protocol", "ISIS", args.protocolInstance,
              "isis", "levels", "level", toString args.level, "link-state-database"], rfl⟩
        | true =>
          refine ⟨{ timestamp := args.timestamp,
                    prefixElement := [],
                    prefixElem := structuredLspPath args.networkInstance args.protocolInstance args.level id0,
                    atomic := true }, ?_, rfl, ?_⟩
          · simp [RenderNotifications, hid, togNMINotifications, hu]
          · simp only [endsWithLspElem, hu]
            refine ⟨[{ name := "network-instances", keys := [] },
              { name := "network-instance", keys := [("name", args.networkInstance)] },
              { name := "protocols", keys := [] },
              { name := "protocol", keys := [("identifier", "ISIS"), ("name", args.protocolInstance)] },
              { name := "isis", keys := [] },
              { name := "levels", keys := [] },
              { name := "level", keys := [("level-number", toString args.level)] },
              { name := "link-state-database", keys := [] }], rfl⟩

theorem render_notifications_contract_witness :
    ∃ n, RenderNotifications (some { emptyLsp with lspId := some "0000.4000.ce39.00-00" })
        { networkInstance := "DEFAULT", protocolInstance := "15169", level := 2,
          timestamp := 1494079200000000000, usePathElem := false } = .ok [n] ∧
      n.atomic = true ∧ endsWithLspElem n false "0000.4000.ce39.00-00" :=
  (render_notifications_contract _ _).2 _ _ rfl rfl

/-- C9 counterexample: the claim states the decoded area address is
39.752f0100.0014; the code groups the canonical hex form in 4-hex-digit
(2-byte) groups and produces 39.752f.0100.0014, which the repository's
own tests also expect. -/
theorem area_address_grouping_counterexample :
    areaAddrsOf (ISISBytesToLSP lspFlagBitmap c9bytes 0) = ["39.752f.0100.0014"] ∧
    ("39.752f.0100.0014" : String) ≠ "39.752f0100.0014" :=
  ⟨rfl, by decide⟩

/-- C9 amended: decoding the header followed by the Area Addresses TLV
01 08 07 39 75 2F 01 00 00 14 yields exactly one TLV of type 1 with the
single address 39.752f.0100.0014 (first byte as a 2-hex-digit group, then
the remaining bytes grouped 4 hex digits at a time); and an address whose
declared length overflows the TLV value aborts that TLV with an error,
keeping only the addresses already decoded. -/
theorem area_address_decode_and_overflow :
    (ISISBytesToLSP lspFlagBitmap c9bytes 0 = .ok (some c9ResultLsp, true, [])) ∧
    (∀ (v : Bytes) (x : Nat) (acc : List String) (fuel : Nat),
      x < v.length → v.length < x + 1 + v.getD x 0 →
      ∃ e, areaAddrLoop v x acc (fuel + 1) = .ok (acc, [e])) :=
  ⟨rfl, fun v x acc fuel hx hov => areaAddrLoop_overflow v x acc fuel hx hov⟩

theorem area_address_decode_and_overflow_witness :
    ∃ e, areaAddrLoop [5] 0 [] 1 = .ok ([], [e]) :=
  area_address_decode_and_overflow.2 [5] 0 [] 0 (by decide) (by decide)

/-- C10: for every Router Capability TLV with a value shorter than 5
bytes, processCapabilityTLV first appends a new empty capability entry
keyed by the current list length and only then returns the
fatal-per-TLV error, so the partial entry (instance number set, no
router ID, no flags) stays in the LSP, the list grows by one, and the
instance number given to a later Router Capability TLV is shifted by
one (it is always the new list length). -/
theorem capability_short_tlv_partial_entry (i : Lsp) (r : RawTLV)
    (hlen : r.value.length < 5)
    (hfresh : alookup (capsOf i) (capsOf i).length = none) :
    ∃ i1, processCapabilityTLV i r =
        .ok (i1, ["invalid length of Router Capability TLV; " ++ toString r.value.length]) ∧
      capsOf i1 = capsOf i ++ [((capsOf i).length, emptyCapability (capsOf i).length)] ∧
      (capsOf i1).length = (capsOf i).length + 1 ∧
      (emptyCapability (capsOf i).length).routerId = none ∧
      (emptyCapability (capsOf i).length).flags = [] := by
  cases hlk : alookup i.tlv .ROUTER_CAPABILITY with
  | none =>
    have hx : processCapabilityTLV i r =
        .ok (writeCapability { i with tlv := aset i.tlv TlvType.ROUTER_CAPABILITY (newTlvRec TlvType.ROUTER_CAPABILITY) }
              (newTlvRec TlvType.ROUTER_CAPABILITY) 0 (emptyCapability 0),
             ["invalid length of Router Capability TLV; " ++ toString r.value.length]) := by
      simp [processCapabilityTLV, getTLV, hlk, newTlvRec, alookup]
      intro h
      omega
    refine ⟨_, hx, ?_, ?_, rfl, rfl⟩
    · simp [capsOf, hlk, writeCapability, setTLV, alookup_aset_self, newTlvRec]
    · simp [capsOf, hlk, writeCapability, setTLV, alookup_aset_self, newTlvRec]
  | some tlv =>
    have hcaps : capsOf i = tlv.capability := by simp [capsOf, hlk]
    rw [hcaps] at hfresh
    have hx : processCapabilityTLV i r =
        .ok (writeCapability i tlv tlv.capability.length (emptyCapability tlv.capability.length),
             ["invalid length of Router Capability TLV; " ++ toString r.value.length]) := by
      simp [processCapabilityTLV, getTLV, hlk, hfresh]
      intro h
      omega
    refine ⟨_, hx, ?_, ?_, rfl, rfl⟩
    · simp [capsOf, hlk, writeCapability, setTLV, alookup_aset_self]
    · simp [capsOf, hlk, writeCapability, setTLV, alookup_aset_self]

theorem capability_short_tlv_partial_entry_witness :
    ∃ i1, processCapabilityTLV emptyLsp c10TLV =
        .ok (i1, ["invalid length of Router Capability TLV; " ++ toString c10TLV.value.length]) ∧
      capsOf i1 = capsOf emptyLsp ++ [((capsOf emptyLsp).length, emptyCapability (capsOf emptyLsp).length)] ∧
      (capsOf i1).length = (capsOf emptyLsp).length + 1 ∧
      (emptyCapability (capsOf emptyLsp).length).routerId = none ∧
      (emptyCapability (capsOf emptyLsp).length).flags = [] :=
  capability_short_tlv_partial_entry emptyLsp c10TLV (by simp [c10TLV]) (by simp [capsOf, emptyLsp, alookup])

end Lsdbparse
